import Mathlib

/-!
Verification of vkexperiments: queue-family selection and frame pacing.

A shallow embedding of `src/src/render_context.cpp` (namespace `vke`).

* Queue family indices, handles and flag words are natural numbers; the
  Vulkan constants keep their numeric values.
* A device call made by `render_frame` either returns a value or throws; the
  environment of one call is recorded in `FrameEnv`, and the calls issued are
  recorded, in program order, in a list of `FrameOp`.
-/

namespace vke

/-! ## Constants -/

/-- The largest 32-bit unsigned value. -/
def UINT32_MAX : Nat := 4294967295

/-- Flag bit `VK_QUEUE_GRAPHICS_BIT`. -/
def eGraphics : Nat := 1
/-- Flag bit `VK_QUEUE_COMPUTE_BIT`. -/
def eCompute : Nat := 2
/-- Flag bit `VK_QUEUE_TRANSFER_BIT`. -/
def eTransfer : Nat := 4
/-- Flag bit `VK_QUEUE_SPARSE_BINDING_BIT`. -/
def eSparseBinding : Nat := 8

/-- The test `flags & bit` used as a condition (non-zero means set). -/
def hasFlag (flags bit : Nat) : Bool := (flags &&& bit) != 0

/-- The test `(flags & bit) == bit`. -/
def hasAll (flags bit : Nat) : Bool := (flags &&& bit) == bit

/-! ## Queue family selection (constructor, lines 53-119) -/

/-- The part of `vk::QueueFamilyProperties` read by the selection loop. -/
structure QueueFamilyProperties where
  queueFlags : Nat
deriving Repr, DecidableEq

/-- Result record `QueueFamilies` of `render_context.hpp`. -/
structure QueueFamilies where
  graphics : Nat
  present : Nat
  transfer : Nat
  compute : Nat
deriving Repr, DecidableEq

/-- Local variables of the selection block. -/
structure Sel where
  graphics : Option Nat
  present : Option Nat
  transfer : Option Nat
  compute : Option Nat
  sparseTransfer : Bool
  sparseGraphics : Bool
  sparseCompute : Bool
  computeGraphicsShared : Bool
deriving Repr, DecidableEq

/-- Values of the locals before the loop. -/
def Sel.init : Sel :=
  { graphics := none, present := none, transfer := none, compute := none,
    sparseTransfer := false, sparseGraphics := false, sparseCompute := false,
    computeGraphicsShared := false }

/-- Condition of the first `if` of the loop body (line 67). -/
def graphicsCond (s : Sel) (props : QueueFamilyProperties) : Bool :=
  (match s.graphics with
    | none => true
    | some g => s.sparseGraphics == false && s.present.getD UINT32_MAX != g)
  && hasFlag props.queueFlags eGraphics

/-- First `if` of the loop body (lines 67-71). -/
def stepGraphics (s : Sel) (i : Nat) (props : QueueFamilyProperties) : Sel :=
  if graphicsCond s props then
    { s with graphics := some i, sparseGraphics := hasAll props.queueFlags eSparseBinding }
  else s

/-- Second `if` of the loop body (lines 73-75); `support i` stands for
`getSurfaceSupportKHR(i, m_surface)`. -/
def stepPresent (support : Nat → Bool) (s : Sel) (i : Nat) : Sel :=
  if s.present.isNone && support i then { s with present := some i } else s

/-- Condition of the third `if` of the loop body (lines 77-78). -/
def transferCond (s : Sel) (props : QueueFamilyProperties) : Bool :=
  (s.transfer.isNone || (!s.sparseTransfer && hasFlag props.queueFlags eSparseBinding))
  && !(hasFlag props.queueFlags eGraphics) && hasFlag props.queueFlags eTransfer

/-- Third `if` of the loop body (lines 77-83). -/
def stepTransfer (s : Sel) (i : Nat) (props : QueueFamilyProperties) : Sel :=
  if transferCond s props then
    { s with sparseTransfer := hasAll props.queueFlags eSparseBinding, transfer := some i }
  else s

/-- Condition of the fourth `if` of the loop body (lines 85-87). -/
def computeCond (s : Sel) (props : QueueFamilyProperties) : Bool :=
  (s.compute.isNone || (!s.sparseCompute && hasFlag props.queueFlags eSparseBinding)
    || (!s.computeGraphicsShared && hasFlag props.queueFlags eGraphics))
  && hasFlag props.queueFlags eCompute

/-- Fourth `if` of the loop body (lines 85-93). -/
def stepCompute (s : Sel) (i : Nat) (props : QueueFamilyProperties) : Sel :=
  if computeCond s props then
    { s with compute := some i,
             sparseCompute := hasAll props.queueFlags eSparseBinding,
             computeGraphicsShared := hasAll props.queueFlags eGraphics }
  else s

/-- One iteration of the loop for family index `i`. -/
def selectStep (support : Nat → Bool) (s : Sel) (i : Nat) (props : QueueFamilyProperties) : Sel :=
  stepCompute (stepTransfer (stepPresent support (stepGraphics s i props) i) i props) i props

/-- The loop of lines 65-94 over the families not yet visited, the next index being `i`. -/
def selectLoop (support : Nat → Bool) : List QueueFamilyProperties → Nat → Sel → Sel
  | [], _, s => s
  | props :: rest, i, s => selectLoop support rest (i + 1) (selectStep support s i props)

/-- The checks after the loop (lines 96-118). -/
def selectFinish (s : Sel) : Except String QueueFamilies :=
  match s.graphics with
  | none => .error "No graphics queue available"
  | some g =>
    match s.present with
    | none => .error "No queue supports presentation operations to this surface"
    | some p =>
      let t := match s.transfer with
        | none => g
        | some t => t
      match s.compute with
      | none => .error "No compute queue available"
      | some c => .ok { graphics := g, present := p, transfer := t, compute := c }

/-- Queue family selection of the constructor. -/
def selectQueueFamilies (support : Nat → Bool) (fams : List QueueFamilyProperties) :
    Except String QueueFamilies :=
  selectFinish (selectLoop support fams 0 Sel.init)

/-! ## Swapchain configuration (`configure_swapchain`, lines 261-356) -/

/-- Format code `VK_FORMAT_B8G8R8A8_SRGB`. -/
def eB8G8R8A8Srgb : Nat := 50
/-- Format code `VK_FORMAT_R8G8B8A8_SRGB`. -/
def eR8G8B8A8Srgb : Nat := 43
/-- Color space code `VK_COLOR_SPACE_SRGB_NONLINEAR_KHR`. -/
def eSrgbNonlinear : Nat := 0
/-- Present mode code `VK_PRESENT_MODE_MAILBOX_KHR`. -/
def eMailbox : Nat := 1
/-- Present mode code `VK_PRESENT_MODE_FIFO_KHR`. -/
def eFifo : Nat := 2
/-- Layout code `VK_IMAGE_LAYOUT_UNDEFINED`. -/
def eUndefined : Nat := 0
/-- Number of frame slots. -/
def MAX_FRAMES_IN_FLIGHT : Nat := 2

/-- Record `vk::SurfaceFormatKHR`. -/
structure SurfaceFormatKHR where
  format : Nat
  colorSpace : Nat
deriving Repr, DecidableEq

/-- Record `vk::Extent2D` (32-bit unsigned components). -/
structure Extent2D where
  width : Nat
  height : Nat
deriving Repr, DecidableEq

/-- The fields of `vk::SurfaceCapabilitiesKHR` read by `configure_swapchain`. -/
structure SurfaceCapabilitiesKHR where
  minImageCount : Nat
  maxImageCount : Nat
  currentExtent : Extent2D
  minImageExtent : Extent2D
  maxImageExtent : Extent2D
  currentTransform : Nat
deriving Repr, DecidableEq

/-- Sharing mode of the chain images. -/
inductive SharingMode where
  | eExclusive
  | eConcurrent
deriving Repr, DecidableEq

/-- The fields of `vk::SwapchainCreateInfoKHR` that `configure_swapchain` computes. -/
structure SwapchainCreateInfoKHR where
  oldSwapchain : Option Nat
  imageFormat : Nat
  imageColorSpace : Nat
  presentMode : Nat
  minImageCount : Nat
  imageExtent : Extent2D
  imageSharingMode : SharingMode
  queueFamilyIndices : List Nat
deriving Repr, DecidableEq

/-- Record `SwapchainConfiguration` of `render_context.hpp`. -/
structure SwapchainConfiguration where
  format : Nat
  color_space : Nat
  extent : Extent2D
deriving Repr, DecidableEq

/-- What the device and the window report to one run of `configure_swapchain`:
the three surface queries, the framebuffer size of `glfwGetFramebufferSize`
(signed), the handle returned by `createSwapchainKHR`, the images returned by
`getSwapchainImagesKHR`, and the view handle `createImageView` returns for an
image. -/
structure SurfaceEnv where
  caps : SurfaceCapabilitiesKHR
  present_modes : List Nat
  formats : List SurfaceFormatKHR
  framebuffer : Int × Int
  swapchain : Nat
  images : List Nat
  createImageView : Nat → Nat

/-- Device calls issued by `configure_swapchain`, in program order. -/
inductive DeviceOp where
  | createSwapchainKHR (info : SwapchainCreateInfoKHR)
  | waitIdle
  | destroyImageView (view : Nat)
  | destroySwapchainKHR (swapchain : Nat)
  | getSwapchainImagesKHR
  | createImageView (image : Nat)
deriving Repr, DecidableEq

/-- Record `FrameInfo` of `render_context.hpp`; the image, view, semaphore and
fence handles are determined by `image_index` and `current_frame` and are left out. -/
structure FrameInfo where
  image_index : Nat
  current_frame : Nat
  initial_owner : Nat
  swapchain_reloaded : Bool
deriving Repr, DecidableEq

/-- The members of `RenderContext` written after device creation. A command
pool is represented by the queue family index it was created for. -/
structure RenderContext where
  m_queue_families : QueueFamilies
  m_swapchain_configuration : SwapchainConfiguration
  m_frame_info : FrameInfo
  m_swapchain : Option Nat
  m_swapchain_images : List Nat
  m_swapchain_image_views : List Nat
  m_swapchain_image_last_layout : List Nat
  m_swapchain_image_last_owner : List Nat
  m_graphics_pool : Option Nat
  m_transfer_pool : Option Nat
  m_compute_pool : Option Nat
  m_current_frame : Nat
  m_swapchain_reloaded : Bool
deriving Repr, DecidableEq

/-- The format loop of lines 269-275: `cur` is kept unless a later entry is
the pair B8G8R8A8_SRGB / SRGB_NONLINEAR, at which the loop breaks. -/
def pickFormat (cur : SurfaceFormatKHR) : List SurfaceFormatKHR → SurfaceFormatKHR
  | [] => cur
  | format :: rest =>
    if format.format == eB8G8R8A8Srgb && format.colorSpace == eSrgbNonlinear then format
    else pickFormat cur rest

/-- The present mode loop of lines 280-285 (no break). -/
def pickPresentMode (present_modes : List Nat) : Nat :=
  present_modes.foldl (fun cur mode => if mode == eMailbox then mode else cur) eFifo

/-- Lines 287-290, in 32-bit unsigned arithmetic. -/
def pickImageCount (caps : SurfaceCapabilitiesKHR) : Nat :=
  let count := (caps.minImageCount + 1) % 2 ^ 32
  if caps.maxImageCount > 0 && count > caps.maxImageCount then caps.maxImageCount else count

/-- Conversion of a signed `int` to `uint32_t`. -/
def toUint32 (x : Int) : Nat := (x % 2 ^ 32).toNat

/-- Function `std::clamp(v, lo, hi)`. -/
def clamp (v lo hi : Nat) : Nat := if v < lo then lo else if hi < v then hi else v

/-- Lines 292-302. -/
def pickExtent (caps : SurfaceCapabilitiesKHR) (framebuffer : Int × Int) : Extent2D :=
  if caps.currentExtent.width != UINT32_MAX then caps.currentExtent
  else
    { width := clamp (toUint32 framebuffer.1) caps.minImageExtent.width caps.maxImageExtent.width,
      height := clamp (toUint32 framebuffer.2) caps.minImageExtent.height
        caps.maxImageExtent.height }

/-- Method `std::vector::resize(n)` with value-initialised new elements. -/
def resize (xs : List Nat) (n : Nat) : List Nat :=
  xs.take n ++ List.replicate (n - xs.length) 0

/-- The per-image loop of lines 337-347, `i` being the loop counter. -/
def imageLoop (env : SurfaceEnv) (graphics : Nat) :
    List Nat → Nat → List Nat × List Nat × List Nat → List Nat × List Nat × List Nat
  | [], _, acc => acc
  | image :: rest, i, (views, layouts, owners) =>
    imageLoop env graphics rest (i + 1)
      (views ++ [env.createImageView image], layouts.set i eUndefined, owners.set i graphics)

/-- The create info assembled by lines 266-319. -/
def swapchainCreateInfo (c : RenderContext) (env : SurfaceEnv) : SwapchainCreateInfoKHR :=
  let surface_format := pickFormat (env.formats.headD ⟨0, 0⟩) env.formats
  let shared := c.m_queue_families.graphics != c.m_queue_families.present
  { oldSwapchain := c.m_swapchain,
    imageFormat := surface_format.format,
    imageColorSpace := surface_format.colorSpace,
    presentMode := pickPresentMode env.present_modes,
    minImageCount := pickImageCount env.caps,
    imageExtent := pickExtent env.caps env.framebuffer,
    imageSharingMode := if shared then .eConcurrent else .eExclusive,
    queueFamilyIndices :=
      if shared then [c.m_queue_families.graphics, c.m_queue_families.present] else [] }

/-- Method `RenderContext::configure_swapchain`: the new member values and the
device calls issued. Reading `formats[0]` of an empty format list is undefined
in the source; the placeholder format 0 / 0 stands for it. -/
def configure_swapchain (c : RenderContext) (env : SurfaceEnv) : RenderContext × List DeviceOp :=
  let create_info := swapchainCreateInfo c env
  let ops1 := [DeviceOp.createSwapchainKHR create_info]
  let views0 : List Nat :=
    match create_info.oldSwapchain with
    | some _ => []
    | none => c.m_swapchain_image_views
  let ops2 : List DeviceOp :=
    match create_info.oldSwapchain with
    | some old =>
      [DeviceOp.waitIdle] ++ c.m_swapchain_image_views.map DeviceOp.destroyImageView
        ++ [DeviceOp.destroySwapchainKHR old]
    | none => []
  let images := env.images
  let n := images.length
  let filled :=
    imageLoop env c.m_queue_families.graphics images 0
      (views0, resize c.m_swapchain_image_last_layout n, resize c.m_swapchain_image_last_owner n)
  ({ c with
      m_swapchain := some env.swapchain,
      m_swapchain_images := images,
      m_swapchain_image_views := filled.1,
      m_swapchain_image_last_layout := filled.2.1,
      m_swapchain_image_last_owner := filled.2.2,
      m_swapchain_configuration :=
        { format := create_info.imageFormat, color_space := create_info.imageColorSpace,
          extent := create_info.imageExtent },
      m_swapchain_reloaded := true },
   ops1 ++ ops2 ++ [DeviceOp.getSwapchainImagesKHR] ++ images.map DeviceOp.createImageView)

/-- The part of the constructor after device creation (lines 53-119 and
218-231): queue family selection, the first `configure_swapchain`, and the
three command pools. -/
def RenderContext.create (support : Nat → Bool) (fams : List QueueFamilyProperties)
    (env : SurfaceEnv) : Except String RenderContext :=
  match selectQueueFamilies support fams with
  | .error msg => .error msg
  | .ok qf =>
    let c0 : RenderContext :=
      { m_queue_families := qf,
        m_swapchain_configuration := ⟨0, 0, ⟨0, 0⟩⟩,
        m_frame_info := ⟨0, 0, 0, false⟩,
        m_swapchain := none,
        m_swapchain_images := [],
        m_swapchain_image_views := [],
        m_swapchain_image_last_layout := [],
        m_swapchain_image_last_owner := [],
        m_graphics_pool := none,
        m_transfer_pool := none,
        m_compute_pool := none,
        m_current_frame := 0,
        m_swapchain_reloaded := false }
    let c1 := (configure_swapchain c0 env).1
    .ok { c1 with
      m_graphics_pool := some qf.graphics,
      m_compute_pool := some qf.transfer,
      m_transfer_pool := some qf.compute }

/-! ## Frame pacing (`render_frame`, lines 358-400) -/

/-- The values of `vk::Result` that a call can return without throwing. -/
inductive Result where
  | eSuccess
  | eNotReady
  | eTimeout
  | eSuboptimalKHR
deriving Repr, DecidableEq

/-- What a call can throw: `vk::OutOfDateKHRError`, the `std::runtime_error`
of line 365, or any other exception. -/
inductive Thrown where
  | outOfDateKHRError
  | runtime_error
  | other
deriving Repr, DecidableEq

/-- Result of one call: it returns a value or throws. -/
inductive Call (α : Type) where
  | returned (value : α)
  | threw (err : Thrown)
deriving Repr, DecidableEq

/-- How `render_frame` ends. -/
inductive Outcome where
  | returned
  | threw (err : Thrown)
deriving Repr, DecidableEq

/-- Behaviour of the device and of the callback during one `render_frame`:
the fence wait, the `n`-th `acquireNextImageKHR` (result code and image index),
what the `n`-th `configure_swapchain` sees, the fence reset, the callback `f`
and the present. The device calls inside `configure_swapchain` are taken to
succeed. -/
structure FrameEnv where
  waitForFences : Call Result
  acquireNextImageKHR : Nat → Call (Result × Nat)
  surface : Nat → SurfaceEnv
  resetFences : Call Unit
  f : FrameInfo → Call Unit
  presentKHR : Call Result

/-- The calls issued by `render_frame`, in program order. The slot argument
names the fence or semaphore set that is used. -/
inductive FrameOp where
  | waitForFences (slot : Nat)
  | acquireNextImageKHR (slot : Nat)
  | configure_swapchain
  | resetFences (slot : Nat)
  | callback (info : FrameInfo)
  | presentKHR (slot : Nat) (image_index : Nat)
deriving Repr, DecidableEq

/-- Final member values, calls issued and outcome of one `render_frame`. -/
structure FrameResult where
  ctx : RenderContext
  trace : List FrameOp
  outcome : Outcome
deriving Repr, DecidableEq

/-- Lines 383-386: the `FrameInfo` handed to the callback for image `image_index`. -/
def frameInfoOf (c : RenderContext) (image_index : Nat) : FrameInfo :=
  { c.m_frame_info with
    image_index := image_index,
    initial_owner := c.m_swapchain_image_last_owner.getD image_index 0,
    swapchain_reloaded := c.m_swapchain_reloaded }

/-- Lines 376 and 383-387: the members after `m_frame_info` is filled in and
the pending reload flag is cleared. -/
def acquired (c : RenderContext) (image_index : Nat) : RenderContext :=
  { c with m_frame_info := frameInfoOf c image_index, m_swapchain_reloaded := false }

/-- Line 399: the slot index moves on. -/
def advance (c : RenderContext) : RenderContext :=
  { c with m_current_frame := (c.m_current_frame + 1) % MAX_FRAMES_IN_FLIGHT }

/-- Lines 383-399: after a successful acquisition of image `image_index`;
`configured` counts the earlier `configure_swapchain` runs of this call. -/
def frameBody (c : RenderContext) (env : FrameEnv) (configured : Nat) (image_index : Nat)
    (tr : List FrameOp) : FrameResult :=
  match env.resetFences with
  | .threw err =>
    ⟨acquired c image_index, tr ++ [.resetFences c.m_current_frame], .threw err⟩
  | .returned _ =>
    match env.f (frameInfoOf c image_index) with
    | .threw err =>
      ⟨acquired c image_index,
        tr ++ [.resetFences c.m_current_frame, .callback (frameInfoOf c image_index)],
        .threw err⟩
    | .returned _ =>
      match env.presentKHR with
      | .returned _ =>
        ⟨advance (acquired c image_index),
          tr ++ [.resetFences c.m_current_frame, .callback (frameInfoOf c image_index),
            .presentKHR c.m_current_frame image_index],
          .returned⟩
      | .threw .outOfDateKHRError =>
        ⟨advance (configure_swapchain (acquired c image_index) (env.surface configured)).1,
          tr ++ [.resetFences c.m_current_frame, .callback (frameInfoOf c image_index),
            .presentKHR c.m_current_frame image_index, .configure_swapchain],
          .returned⟩
      | .threw err =>
        ⟨acquired c image_index,
          tr ++ [.resetFences c.m_current_frame, .callback (frameInfoOf c image_index),
            .presentKHR c.m_current_frame image_index],
          .threw err⟩

/-- The `catch (vk::OutOfDateKHRError &)` block of lines 377-381; `configured`
and `acquired` count the earlier `configure_swapchain` and acquire calls. -/
def acquireHandler (c : RenderContext) (env : FrameEnv) (configured nacquired : Nat)
    (tr : List FrameOp) : FrameResult :=
  match env.acquireNextImageKHR nacquired with
  | .returned r =>
    ⟨{ (configure_swapchain c (env.surface configured)).1 with
        m_frame_info :=
          { (configure_swapchain c (env.surface configured)).1.m_frame_info with
            image_index := r.2 } },
      tr ++ [.configure_swapchain, .acquireNextImageKHR c.m_current_frame], .returned⟩
  | .threw err =>
    ⟨(configure_swapchain c (env.surface configured)).1,
      tr ++ [.configure_swapchain, .acquireNextImageKHR c.m_current_frame], .threw err⟩

/-- Lines 359-362: the slot's primitives are entered into `m_frame_info`. -/
def selectSlot (c : RenderContext) : RenderContext :=
  { c with m_frame_info := { c.m_frame_info with current_frame := c.m_current_frame } }

/-- Method `RenderContext::render_frame`. -/
def render_frame (c : RenderContext) (env : FrameEnv) : FrameResult :=
  match env.waitForFences with
  | .threw err => ⟨selectSlot c, [.waitForFences c.m_current_frame], .threw err⟩
  | .returned w =>
    if w != Result.eSuccess then
      ⟨selectSlot c, [.waitForFences c.m_current_frame], .threw .runtime_error⟩
    else
      match env.acquireNextImageKHR 0 with
      | .threw .outOfDateKHRError =>
        acquireHandler (selectSlot c) env 0 1
          [.waitForFences c.m_current_frame, .acquireNextImageKHR c.m_current_frame]
      | .threw err =>
        ⟨selectSlot c, [.waitForFences c.m_current_frame, .acquireNextImageKHR c.m_current_frame],
          .threw err⟩
      | .returned r =>
        if r.1 != Result.eSuccess then
          match env.acquireNextImageKHR 1 with
          | .threw .outOfDateKHRError =>
            acquireHandler (configure_swapchain (selectSlot c) (env.surface 0)).1 env 1 2
              [.waitForFences c.m_current_frame, .acquireNextImageKHR c.m_current_frame,
                .configure_swapchain, .acquireNextImageKHR c.m_current_frame]
          | .threw err =>
            ⟨(configure_swapchain (selectSlot c) (env.surface 0)).1,
              [.waitForFences c.m_current_frame, .acquireNextImageKHR c.m_current_frame,
                .configure_swapchain, .acquireNextImageKHR c.m_current_frame],
              .threw err⟩
          | .returned r2 =>
            frameBody (configure_swapchain (selectSlot c) (env.surface 0)).1 env 1 r2.2
              [.waitForFences c.m_current_frame, .acquireNextImageKHR c.m_current_frame,
                .configure_swapchain, .acquireNextImageKHR c.m_current_frame]
        else
          frameBody (selectSlot c) env 0 r.2
            [.waitForFences c.m_current_frame, .acquireNextImageKHR c.m_current_frame]

/-- A sequence of `render_frame` calls, one environment per call. -/
def render_frames (c : RenderContext) : List FrameEnv → RenderContext
  | [] => c
  | env :: rest => render_frames (render_frame c env).ctx rest

/-- Test for a callback invocation. -/
def FrameOp.isCallback : FrameOp → Bool
  | .callback _ => true
  | _ => false

/-- Test for a present call. -/
def FrameOp.isPresent : FrameOp → Bool
  | .presentKHR _ _ => true
  | _ => false

/-- Test for an image acquisition. -/
def FrameOp.isAcquire : FrameOp → Bool
  | .acquireNextImageKHR _ => true
  | _ => false

/-- Test for a chain rebuild. -/
def FrameOp.isConfigure : FrameOp → Bool
  | .configure_swapchain => true
  | _ => false

/-- Test for a fence reset. -/
def FrameOp.isReset : FrameOp → Bool
  | .resetFences _ => true
  | _ => false

/-- A surface used in the examples: three images, FIFO only. -/
def sampleSurface : SurfaceEnv :=
  { caps := ⟨2, 0, ⟨800, 600⟩, ⟨1, 1⟩, ⟨4096, 4096⟩, 1⟩,
    present_modes := [eFifo],
    formats := [⟨eB8G8R8A8Srgb, eSrgbNonlinear⟩],
    framebuffer := (800, 600),
    swapchain := 1,
    images := [10, 11, 12],
    createImageView := fun image => image + 100 }

/-- An environment in which every call succeeds. -/
def envOk : FrameEnv :=
  { waitForFences := .returned .eSuccess,
    acquireNextImageKHR := fun _ => .returned (.eSuccess, 0),
    surface := fun _ => sampleSurface,
    resetFences := .returned (),
    f := fun _ => .returned (),
    presentKHR := .returned .eSuccess }

/-- The context the constructor builds for the three-family scenario on `sampleSurface`. -/
def sampleContext : RenderContext :=
  { m_queue_families := { graphics := 0, present := 1, transfer := 0, compute := 2 },
    m_swapchain_configuration := ⟨50, 0, ⟨800, 600⟩⟩,
    m_frame_info := ⟨0, 0, 0, false⟩,
    m_swapchain := some 1,
    m_swapchain_images := [10, 11, 12],
    m_swapchain_image_views := [110, 111, 112],
    m_swapchain_image_last_layout := [0, 0, 0],
    m_swapchain_image_last_owner := [0, 0, 0],
    m_graphics_pool := some 0,
    m_transfer_pool := some 2,
    m_compute_pool := some 0,
    m_current_frame := 0,
    m_swapchain_reloaded := true }

/-- The first acquire throws out-of-date; every other call succeeds. -/
def envAcquireOutOfDate : FrameEnv :=
  { envOk with
    acquireNextImageKHR := fun n =>
      if n == 0 then .threw .outOfDateKHRError else .returned (.eSuccess, 1) }

/-- The first acquire returns suboptimal, the retry after the rebuild throws
out-of-date, and the acquire after that succeeds. -/
def envRetryOutOfDate : FrameEnv :=
  { envOk with
    acquireNextImageKHR := fun n =>
      if n == 0 then .returned (.eSuboptimalKHR, 0)
      else if n == 1 then .threw .outOfDateKHRError
      else .returned (.eSuccess, 1) }

/-- Every call succeeds except that present throws out-of-date. -/
def envPresentOutOfDate : FrameEnv :=
  { envOk with presentKHR := .threw .outOfDateKHRError }

/-- Every call succeeds and present returns the suboptimal status. -/
def envPresentSuboptimal : FrameEnv :=
  { envOk with presentKHR := .returned .eSuboptimalKHR }

/-- Scan of a trace: every operation satisfying `q` has an operation
satisfying `p` somewhere before it, or `seen` was already set. -/
def precededBy (p q : FrameOp → Bool) : List FrameOp → Bool → Bool
  | [], _ => true
  | op :: rest, seen => (!q op || seen) && precededBy p q rest (seen || p op)

/-! ## Resource state tracking (`state_track.cpp`) and the application callback -/

/-- Sentinel `VK_QUEUE_FAMILY_IGNORED` (`~0U`). -/
def VK_QUEUE_FAMILY_IGNORED : Nat := 4294967295

/-- Access mask `vk::AccessFlagBits2::eNone`. -/
def eNone : Nat := 0

/-- Aspect bit `VK_IMAGE_ASPECT_COLOR_BIT`. -/
def eColor : Nat := 1

/-- Record `ImageState` of `state_track.hpp`. -/
structure ImageState where
  current_layout : Nat
  current_access : Nat
  current_owner : Nat
deriving Repr, DecidableEq

/-- Record `vk::ImageSubresourceRange`. -/
structure ImageSubresourceRange where
  aspectMask : Nat
  baseMipLevel : Nat
  levelCount : Nat
  baseArrayLayer : Nat
  layerCount : Nat
deriving Repr, DecidableEq

/-- The members of class `TrackedImage`. -/
structure TrackedImage where
  m_image : Nat
  m_subresource_range : ImageSubresourceRange
  m_state : ImageState
deriving Repr, DecidableEq

/-- The fields of `vk::ImageMemoryBarrier2` written by `transition`. -/
structure ImageMemoryBarrier2 where
  image : Nat
  subresourceRange : ImageSubresourceRange
  oldLayout : Nat
  newLayout : Nat
  srcAccessMask : Nat
  dstAccessMask : Nat
  srcQueueFamilyIndex : Nat
  dstQueueFamilyIndex : Nat
  srcStageMask : Nat
  dstStageMask : Nat
deriving Repr, DecidableEq

/-- The two-argument constructor of `TrackedImage` (lines 7-13). -/
def TrackedImage.new (image : Nat) (subresource_range : ImageSubresourceRange) : TrackedImage :=
  { m_image := image,
    m_subresource_range := subresource_range,
    m_state := { current_layout := eUndefined, current_access := eNone, current_owner := 0 } }

/-- The three-argument constructor of `TrackedImage` (lines 15-19). -/
def TrackedImage.newWith (image : Nat) (subresource_range : ImageSubresourceRange)
    (initial_state : ImageState) : TrackedImage :=
  { m_image := image, m_subresource_range := subresource_range, m_state := initial_state }

/-- Method `TrackedImage::set_layout`. -/
def TrackedImage.set_layout (t : TrackedImage) (layout : Nat) : TrackedImage :=
  { t with m_state := { t.m_state with current_layout := layout } }

/-- Method `TrackedImage::set_access`. -/
def TrackedImage.set_access (t : TrackedImage) (access : Nat) : TrackedImage :=
  { t with m_state := { t.m_state with current_access := access } }

/-- Method `TrackedImage::set_owner`. -/
def TrackedImage.set_owner (t : TrackedImage) (owner : Nat) : TrackedImage :=
  { t with m_state := { t.m_state with current_owner := owner } }

/-- The barrier assembled by `transition` (lines 34-44). -/
def TrackedImage.barrier (t : TrackedImage) (src_stage dst_stage new_layout new_access
    new_owner : Nat) : ImageMemoryBarrier2 :=
  { image := t.m_image,
    subresourceRange := t.m_subresource_range,
    oldLayout := t.m_state.current_layout,
    newLayout := new_layout,
    srcAccessMask := t.m_state.current_access,
    dstAccessMask := new_access,
    srcQueueFamilyIndex := t.m_state.current_owner,
    dstQueueFamilyIndex :=
      if new_owner == VK_QUEUE_FAMILY_IGNORED then t.m_state.current_owner else new_owner,
    srcStageMask := src_stage,
    dstStageMask := dst_stage }

/-- Method `TrackedImage::transition`; `cmd` is the list of barriers recorded
so far on the command buffer. -/
def TrackedImage.transition (t : TrackedImage) (cmd : List ImageMemoryBarrier2)
    (src_stage dst_stage new_layout new_access new_owner : Nat) :
    TrackedImage × List ImageMemoryBarrier2 :=
  (((t.set_layout new_layout).set_access new_access).set_owner
      (t.barrier src_stage dst_stage new_layout new_access new_owner).dstQueueFamilyIndex,
    cmd ++ [t.barrier src_stage dst_stage new_layout new_access new_owner])

/-- One call on a `TrackedImage`. -/
inductive TrackOp where
  | set_layout (layout : Nat)
  | set_access (access : Nat)
  | set_owner (owner : Nat)
  | transition (src_stage dst_stage new_layout new_access new_owner : Nat)
deriving Repr, DecidableEq

/-- Effect of one call on the tracker and on the command buffer. -/
def TrackOp.apply (op : TrackOp) (st : TrackedImage × List ImageMemoryBarrier2) :
    TrackedImage × List ImageMemoryBarrier2 :=
  match op with
  | .set_layout layout => (st.1.set_layout layout, st.2)
  | .set_access access => (st.1.set_access access, st.2)
  | .set_owner owner => (st.1.set_owner owner, st.2)
  | .transition src_stage dst_stage new_layout new_access new_owner =>
    st.1.transition st.2 src_stage dst_stage new_layout new_access new_owner

/-- A finite sequence of calls on one `TrackedImage`, in order. -/
def runTrackOps (st : TrackedImage × List ImageMemoryBarrier2) :
    List TrackOp → TrackedImage × List ImageMemoryBarrier2
  | [] => st
  | op :: rest => runTrackOps (op.apply st) rest

/-- Calls that write the tracked owner. -/
def TrackOp.writesOwner : TrackOp → Bool
  | .set_owner _ => true
  | .transition _ _ _ _ _ => true
  | _ => false

/-- Calls that write the tracked layout. -/
def TrackOp.writesLayout : TrackOp → Bool
  | .set_layout _ => true
  | .transition _ _ _ _ _ => true
  | _ => false

/-- Calls that write the tracked access mask. -/
def TrackOp.writesAccess : TrackOp → Bool
  | .set_access _ => true
  | .transition _ _ _ _ _ => true
  | _ => false

/-- Method `App::reload_image_tracking` (`app.cpp`, lines 117-124): the new
value of `m_tracked_images`. -/
def reload_image_tracking (c : RenderContext) : List TrackedImage :=
  c.m_swapchain_images.map (fun image => TrackedImage.new image ⟨eColor, 0, 1, 0, 1⟩)

/-- The first statement of the callback in `App::render` (lines 87-88). -/
def renderReload (c : RenderContext) (m_tracked_images : List TrackedImage)
    (frame_info : FrameInfo) : List TrackedImage :=
  if frame_info.swapchain_reloaded then reload_image_tracking c else m_tracked_images

/-! ## Traces of call sequences -/

/-- The operations of a sequence of `render_frame` calls, in order. -/
def frames_trace (c : RenderContext) : List FrameEnv → List FrameOp
  | [] => []
  | env :: rest => (render_frame c env).trace ++ frames_trace (render_frame c env).ctx rest

/-- Every call of the sequence returns normally. -/
def allReturned (c : RenderContext) : List FrameEnv → Bool
  | [] => true
  | env :: rest =>
    (render_frame c env).outcome == .returned && allReturned (render_frame c env).ctx rest

/-- Scan of a trace for the reload flag: whether a rebuild is still
unreported after the trace, `pending` being the value before it. -/
def reloadPending : List FrameOp → Bool → Bool
  | [], pending => pending
  | .configure_swapchain :: rest, _ => reloadPending rest true
  | .callback _ :: rest, _ => reloadPending rest false
  | _ :: rest, pending => reloadPending rest pending

/-- Scan of a trace for the reload flag: every callback receives exactly the
pending value. -/
def reloadReported : List FrameOp → Bool → Bool
  | [], _ => true
  | .configure_swapchain :: rest, _ => reloadReported rest true
  | .callback info :: rest, pending =>
    (info.swapchain_reloaded == pending) && reloadReported rest false
  | _ :: rest, pending => reloadReported rest pending

/-- The wait times out; nothing else matters. -/
def envWaitTimeout : FrameEnv :=
  { envOk with waitForFences := .returned .eTimeout }

/-- A device whose graphics family has index 1: family 0 is compute and
transfer only, family 1 has graphics, compute and transfer. -/
def computeFirstFamilies : List QueueFamilyProperties :=
  [⟨eCompute ||| eTransfer⟩, ⟨eGraphics ||| eCompute ||| eTransfer⟩]

/-- The context the constructor builds for `computeFirstFamilies` when every
family can present. -/
def computeFirstContext : RenderContext :=
  { m_queue_families := { graphics := 1, present := 0, transfer := 0, compute := 1 },
    m_swapchain_configuration := ⟨50, 0, ⟨800, 600⟩⟩,
    m_frame_info := ⟨0, 0, 0, false⟩,
    m_swapchain := some 1,
    m_swapchain_images := [10, 11, 12],
    m_swapchain_image_views := [110, 111, 112],
    m_swapchain_image_last_layout := [0, 0, 0],
    m_swapchain_image_last_owner := [1, 1, 1],
    m_graphics_pool := some 1,
    m_transfer_pool := some 1,
    m_compute_pool := some 0,
    m_current_frame := 0,
    m_swapchain_reloaded := true }

/-- The sample surface after a change: it now reports two images. -/
def twoImageSurface : SurfaceEnv :=
  { sampleSurface with swapchain := 2, images := [20, 21] }

/-- The operations since construction: the chain build of the constructor,
the calls `envs`, and one further call `env`. -/
def session_trace (c : RenderContext) (envs : List FrameEnv) (env : FrameEnv) : List FrameOp :=
  FrameOp.configure_swapchain ::
    (frames_trace c envs ++ (render_frame (render_frames c envs) env).trace)

/-- The barrier that a `transition` with the given arguments assembles when
it is issued after the calls `ops`. -/
def barrierAfter (st : TrackedImage × List ImageMemoryBarrier2) (ops : List TrackOp)
    (src_stage dst_stage new_layout new_access new_owner : Nat) : ImageMemoryBarrier2 :=
  (runTrackOps st ops).1.barrier src_stage dst_stage new_layout new_access new_owner

/-- Format code `VK_FORMAT_B8G8R8A8_UNORM`. -/
def eB8G8R8A8Unorm : Nat := 44

/-- A surface that offers B8G8R8A8_UNORM first and R8G8B8A8_SRGB second, both
in the sRGB-nonlinear color space. -/
def rgbaSurface : SurfaceEnv :=
  { sampleSurface with
    formats := [⟨eB8G8R8A8Unorm, eSrgbNonlinear⟩, ⟨eR8G8B8A8Srgb, eSrgbNonlinear⟩] }

/-- A surface whose current extent has the sentinel width but height 600,
with a framebuffer of 800 by 500. -/
def sentinelWidthSurface : SurfaceEnv :=
  { sampleSurface with
    caps := ⟨2, 0, ⟨UINT32_MAX, 600⟩, ⟨1, 1⟩, ⟨4096, 4096⟩, 1⟩,
    framebuffer := (800, 500) }

/-- A surface with the undefined current extent and a framebuffer width of -1. -/
def negativeWidthSurface : SurfaceEnv :=
  { sampleSurface with
    caps := ⟨2, 0, ⟨UINT32_MAX, UINT32_MAX⟩, ⟨1, 1⟩, ⟨4096, 4096⟩, 1⟩,
    framebuffer := (-1, 500) }

/-- A surface with the undefined current extent and a framebuffer of 5000 by 0. -/
def undefinedExtentSurface : SurfaceEnv :=
  { sampleSurface with
    caps := ⟨2, 3, ⟨UINT32_MAX, UINT32_MAX⟩, ⟨1, 1⟩, ⟨4096, 4096⟩, 1⟩,
    framebuffer := (5000, 0) }

/-! ## The simple layout transitions (lines 406-430) -/

/-- Layout code `VK_IMAGE_LAYOUT_COLOR_ATTACHMENT_OPTIMAL`. -/
def eColorAttachmentOptimal : Nat := 2
/-- Layout code `VK_IMAGE_LAYOUT_PRESENT_SRC_KHR`. -/
def ePresentSrcKHR : Nat := 1000001002
/-- Access bit `VK_ACCESS_COLOR_ATTACHMENT_WRITE_BIT`. -/
def eColorAttachmentWrite : Nat := 256

/-- Record `vk::ImageMemoryBarrier`. -/
structure ImageMemoryBarrier where
  srcAccessMask : Nat
  dstAccessMask : Nat
  oldLayout : Nat
  newLayout : Nat
  srcQueueFamilyIndex : Nat
  dstQueueFamilyIndex : Nat
  image : Nat
  subresourceRange : ImageSubresourceRange
deriving Repr, DecidableEq

/-- The value-initialised barrier `vk::ImageMemoryBarrier imb{}`: every member
has its default, which is zero (the undefined layout, no access, family 0). -/
def ImageMemoryBarrier.default : ImageMemoryBarrier :=
  { srcAccessMask := 0, dstAccessMask := 0, oldLayout := eUndefined, newLayout := eUndefined,
    srcQueueFamilyIndex := 0, dstQueueFamilyIndex := 0, image := 0,
    subresourceRange := ⟨0, 0, 0, 0, 0⟩ }

/-- Method `RenderContext::simple_rendering_start_transition` (lines 406-417):
the barrier handed to `pipelineBarrier`, built by the assignments in order. -/
def simple_rendering_start_transition (c : RenderContext) (image : Nat) (initial_owner : Nat) :
    ImageMemoryBarrier :=
  let imb0 := ImageMemoryBarrier.default
  let imb1 := { imb0 with image := image }
  let imb2 := { imb1 with subresourceRange := ⟨eColor, 0, 1, 0, 1⟩ }
  let imb3 := { imb2 with oldLayout := eUndefined }
  let imb4 := { imb3 with newLayout := eColorAttachmentOptimal }
  let imb5 := { imb4 with srcAccessMask := eNone }
  let imb6 := { imb5 with dstAccessMask := eColorAttachmentWrite }
  let imb7 := { imb6 with srcQueueFamilyIndex := initial_owner }
  { imb7 with dstQueueFamilyIndex := c.m_queue_families.graphics }

/-- Method `RenderContext::simple_rendering_end_transition` (lines 419-430):
the barrier handed to `pipelineBarrier`, built by the assignments in order;
lines 427 and 428 both assign `srcQueueFamilyIndex`. -/
def simple_rendering_end_transition (c : RenderContext) (image : Nat) : ImageMemoryBarrier :=
  let imb0 := ImageMemoryBarrier.default
  let imb1 := { imb0 with image := image }
  let imb2 := { imb1 with subresourceRange := ⟨eColor, 0, 1, 0, 1⟩ }
  let imb3 := { imb2 with oldLayout := eColorAttachmentOptimal }
  let imb4 := { imb3 with newLayout := ePresentSrcKHR }
  let imb5 := { imb4 with srcAccessMask := eColorAttachmentWrite }
  let imb6 := { imb5 with dstAccessMask := eNone }
  let imb7 := { imb6 with srcQueueFamilyIndex := c.m_queue_families.graphics }
  { imb7 with srcQueueFamilyIndex := c.m_queue_families.present }

/-- Test for a destroy call. -/
def DeviceOp.isDestroy : DeviceOp → Bool
  | .destroyImageView _ => true
  | .destroySwapchainKHR _ => true
  | _ => false

/-! ## Invariants of the selection loop -/

/-- The flag word of family `j`; 0 beyond the end of the list. -/
def flagsAt (fams : List QueueFamilyProperties) (j : Nat) : Nat :=
  match fams[j]? with
  | some props => props.queueFlags
  | none => 0

/-- Invariant of the graphics choice after the families below `i`, `fl` giving
the flag word of each index: an unset choice means no graphics-capable family
so far; a choice `g` is graphics-capable, `sparseGraphics` is its
sparse-binding flag, every graphics-capable family before `g` lacks
sparse-binding, and `g` is sparse, or is the present family, or no
graphics-capable family has followed it; and a graphics-capable present family
is never below the choice. -/
def graphicsInv (fl : Nat → Nat) (s : Sel) (i : Nat) : Prop :=
  (s.graphics = none → ∀ j, j < i → hasFlag (fl j) eGraphics = false) ∧
  (∀ g, s.graphics = some g →
    g < i ∧ hasFlag (fl g) eGraphics = true ∧
    s.sparseGraphics = hasFlag (fl g) eSparseBinding ∧
    (∀ j, j < g → hasFlag (fl j) eGraphics = true → hasFlag (fl j) eSparseBinding = false) ∧
    (s.sparseGraphics = true ∨ s.present = some g ∨
      ∀ j, g < j → j < i → hasFlag (fl j) eGraphics = false)) ∧
  (∀ p, s.present = some p → p < i ∧
    (hasFlag (fl p) eGraphics = true → ∃ g, s.graphics = some g ∧ g ≤ p))

/-- Invariant of the transfer choice after the families below `i`: an unset
choice means no dedicated family (transfer without graphics) so far; a choice
`t` is dedicated, `sparseTransfer` is its sparse-binding flag, a sparse `t` is
the first dedicated sparse family, and a non-sparse `t` is the first dedicated
family while no dedicated family so far is sparse. -/
def transferInv (fl : Nat → Nat) (s : Sel) (i : Nat) : Prop :=
  (s.transfer = none → ∀ j, j < i →
    ¬ (hasFlag (fl j) eTransfer = true ∧ hasFlag (fl j) eGraphics = false)) ∧
  (∀ t, s.transfer = some t →
    t < i ∧ hasFlag (fl t) eTransfer = true ∧ hasFlag (fl t) eGraphics = false ∧
    s.sparseTransfer = hasFlag (fl t) eSparseBinding ∧
    (s.sparseTransfer = true → ∀ j, j < t →
      hasFlag (fl j) eTransfer = true → hasFlag (fl j) eGraphics = false →
      hasFlag (fl j) eSparseBinding = false) ∧
    (s.sparseTransfer = false →
      (∀ j, j < t →
        ¬ (hasFlag (fl j) eTransfer = true ∧ hasFlag (fl j) eGraphics = false)) ∧
      (∀ j, j < i → hasFlag (fl j) eTransfer = true → hasFlag (fl j) eGraphics = false →
        hasFlag (fl j) eSparseBinding = false)))

/-- Invariant of the compute choice after the families below `i`: an unset
choice means no compute-capable family so far; a choice `c` is
compute-capable, the two recorded flags are its sparse-binding and graphics
flags, and `c` has one of them as soon as some compute-capable family so far
has one. -/
def computeInv (fl : Nat → Nat) (s : Sel) (i : Nat) : Prop :=
  (s.compute = none → ∀ j, j < i → hasFlag (fl j) eCompute = false) ∧
  (∀ c, s.compute = some c →
    c < i ∧ hasFlag (fl c) eCompute = true ∧
    s.sparseCompute = hasFlag (fl c) eSparseBinding ∧
    s.computeGraphicsShared = hasFlag (fl c) eGraphics ∧
    (∀ j, j < i → hasFlag (fl j) eCompute = true →
      (hasFlag (fl j) eSparseBinding = true ∨ hasFlag (fl j) eGraphics = true) →
      (hasFlag (fl c) eSparseBinding = true ∨ hasFlag (fl c) eGraphics = true)))

/-- Two graphics-capable families, the second with sparse binding; only
family 1 can present (see `scenarioSupport`). -/
def sparseSecondFamilies : List QueueFamilyProperties :=
  [⟨eGraphics ||| eCompute⟩, ⟨eGraphics ||| eCompute ||| eSparseBinding⟩]

/-- Two equal graphics-capable families without sparse binding. -/
def twinFamilies : List QueueFamilyProperties :=
  [⟨eGraphics ||| eCompute⟩, ⟨eGraphics ||| eCompute⟩]

/-- Surface support in which only family 0 can present. -/
def firstSupport (i : Nat) : Bool := i == 0

/-- A graphics family, a dedicated transfer family and a dedicated sparse
transfer family, in this order. -/
def transferFamilies : List QueueFamilyProperties :=
  [⟨eGraphics ||| eCompute ||| eTransfer⟩, ⟨eTransfer⟩, ⟨eTransfer ||| eSparseBinding⟩]

/-- Every call succeeds except that present throws an error other than out-of-date. -/
def envPresentOther : FrameEnv :=
  { envOk with presentKHR := .threw .other }

/-- Every acquire throws out-of-date; every other call succeeds. -/
def envAcquireAlwaysOutOfDate : FrameEnv :=
  { envOk with acquireNextImageKHR := fun _ => .threw .outOfDateKHRError }

/-- The three-family device of the end-to-end scenario: family 0 has only the
graphics flag, family 1 has no flag, family 2 has the compute and the
sparse-binding flags. -/
def scenarioFamilies : List QueueFamilyProperties :=
  [⟨eGraphics⟩, ⟨0⟩, ⟨eCompute ||| eSparseBinding⟩]

/-- Surface support of the scenario: only family 1 can present. -/
def scenarioSupport (i : Nat) : Bool := i == 1

/-! ## Lemmas on the selection loop -/

section SelectLemmas

variable (support : Nat → Bool)

@[simp] theorem selectStep_graphics (s : Sel) (i : Nat) (p : QueueFamilyProperties) :
    (selectStep support s i p).graphics = (stepGraphics s i p).graphics := by
  unfold selectStep stepCompute stepTransfer stepPresent
  split <;> split <;> split <;> rfl

@[simp] theorem selectStep_present (s : Sel) (i : Nat) (p : QueueFamilyProperties) :
    (selectStep support s i p).present = (stepPresent support s i).present := by
  unfold selectStep stepCompute stepTransfer stepPresent stepGraphics
  split <;> split <;> split <;> split <;> simp_all

@[simp] theorem selectStep_transfer (s : Sel) (i : Nat) (p : QueueFamilyProperties) :
    (selectStep support s i p).transfer = (stepTransfer s i p).transfer := by
  unfold selectStep stepCompute stepTransfer stepPresent stepGraphics transferCond
  split <;> split <;> split <;> split <;> simp_all

@[simp] theorem selectStep_compute (s : Sel) (i : Nat) (p : QueueFamilyProperties) :
    (selectStep support s i p).compute = (stepCompute s i p).compute := by
  unfold selectStep stepCompute stepTransfer stepPresent stepGraphics computeCond
  split <;> split <;> split <;> split <;> simp_all

/-- Where the graphics index comes from: it is the initial one or the index of
a graphics-capable family visited by the loop. -/
theorem selectLoop_graphics_origin :
    ∀ (ps : List QueueFamilyProperties) (i : Nat) (s : Sel) (g : Nat),
      (selectLoop support ps i s).graphics = some g →
      s.graphics = some g ∨
        ∃ j p, ps[j]? = some p ∧ hasFlag p.queueFlags eGraphics = true ∧ g = i + j := by
  intro ps
  induction ps with
  | nil => intro i s g h; exact Or.inl h
  | cons p rest ih =>
    intro i s g h
    rcases ih (i + 1) (selectStep support s i p) g h with h1 | ⟨j, q, hq, hf, hg⟩
    · rw [selectStep_graphics] at h1
      unfold stepGraphics at h1
      split at h1
      · rename_i hc
        right
        refine ⟨0, p, by simp, ?_, ?_⟩
        · unfold graphicsCond at hc
          simp only [Bool.and_eq_true] at hc
          exact hc.2
        · simp only [Option.some.injEq] at h1
          omega
      · exact Or.inl h1
    · right
      exact ⟨j + 1, q, by simpa using hq, hf, by omega⟩

/-- The graphics index is set exactly when it was set before or the loop
visits a graphics-capable family. -/
theorem selectLoop_graphics_isSome :
    ∀ (ps : List QueueFamilyProperties) (i : Nat) (s : Sel),
      (selectLoop support ps i s).graphics.isSome =
        (s.graphics.isSome || ps.any (fun p => hasFlag p.queueFlags eGraphics)) := by
  intro ps
  induction ps with
  | nil => intro i s; simp [selectLoop]
  | cons p rest ih =>
    intro i s
    rw [selectLoop, ih, selectStep_graphics]
    unfold stepGraphics graphicsCond
    cases hs : s.graphics <;> cases hf : hasFlag p.queueFlags eGraphics <;> simp [hs, hf]
    split <;> simp [hs]

/-- Where the compute index comes from. -/
theorem selectLoop_compute_origin :
    ∀ (ps : List QueueFamilyProperties) (i : Nat) (s : Sel) (c : Nat),
      (selectLoop support ps i s).compute = some c →
      s.compute = some c ∨
        ∃ j p, ps[j]? = some p ∧ hasFlag p.queueFlags eCompute = true ∧ c = i + j := by
  intro ps
  induction ps with
  | nil => intro i s c h; exact Or.inl h
  | cons p rest ih =>
    intro i s c h
    rcases ih (i + 1) (selectStep support s i p) c h with h1 | ⟨j, q, hq, hf, hc⟩
    · rw [selectStep_compute] at h1
      unfold stepCompute at h1
      split at h1
      · rename_i hcond
        right
        refine ⟨0, p, by simp, ?_, ?_⟩
        · unfold computeCond at hcond
          simp only [Bool.and_eq_true] at hcond
          exact hcond.2
        · simp only [Option.some.injEq] at h1
          omega
      · exact Or.inl h1
    · right
      exact ⟨j + 1, q, by simpa using hq, hf, by omega⟩

/-- The compute index is set exactly when it was set before or the loop
visits a compute-capable family. -/
theorem selectLoop_compute_isSome :
    ∀ (ps : List QueueFamilyProperties) (i : Nat) (s : Sel),
      (selectLoop support ps i s).compute.isSome =
        (s.compute.isSome || ps.any (fun p => hasFlag p.queueFlags eCompute)) := by
  intro ps
  induction ps with
  | nil => intro i s; simp [selectLoop]
  | cons p rest ih =>
    intro i s
    rw [selectLoop, ih, selectStep_compute]
    unfold stepCompute computeCond
    cases hs : s.compute <;> cases hf : hasFlag p.queueFlags eCompute <;> simp [hs, hf]
    split <;> simp [hs]

/-- The present index stays unset exactly when it was unset and no visited
family supports the surface. -/
theorem selectLoop_present_none :
    ∀ (ps : List QueueFamilyProperties) (i : Nat) (s : Sel),
      (selectLoop support ps i s).present = none ↔
        (s.present = none ∧ ∀ j, j < ps.length → support (i + j) = false) := by
  intro ps
  induction ps with
  | nil => intro i s; simp [selectLoop]
  | cons p rest ih =>
    intro i s
    rw [selectLoop, ih, selectStep_present]
    unfold stepPresent
    constructor
    · rintro ⟨h1, h2⟩
      cases hs : s.present with
      | some v => simp [hs] at h1
      | none =>
        cases hi : support i with
        | true => simp [hs, hi] at h1
        | false =>
          refine ⟨rfl, ?_⟩
          intro j hj
          cases j with
          | zero => simpa using hi
          | succ k =>
            have := h2 k (by simpa using hj)
            rw [← this]; congr 1; omega
    · rintro ⟨h1, h2⟩
      have h0 : support i = false := by simpa using h2 0 (by simp)
      refine ⟨by simp [h1, h0], ?_⟩
      intro j hj
      have := h2 (j + 1) (by simpa using hj)
      rw [← this]; congr 1; omega

/-- Where the present index comes from: it is the initial one, or it was unset
and the result is the first visited index that supports the surface. -/
theorem selectLoop_present_origin :
    ∀ (ps : List QueueFamilyProperties) (i : Nat) (s : Sel) (r : Nat),
      (selectLoop support ps i s).present = some r →
      s.present = some r ∨
        (s.present = none ∧ i ≤ r ∧ r < i + ps.length ∧ support r = true ∧
          ∀ k, i ≤ k → k < r → support k = false) := by
  intro ps
  induction ps with
  | nil => intro i s r h; exact Or.inl h
  | cons p rest ih =>
    intro i s r h
    rcases ih (i + 1) (selectStep support s i p) r h with h1 | ⟨h0, hle, hlt, hsup, hmin⟩
    · rw [selectStep_present] at h1
      unfold stepPresent at h1
      split at h1
      · rename_i hc
        simp only [Bool.and_eq_true, Option.isNone_iff_eq_none] at hc
        simp only [Option.some.injEq] at h1
        right
        subst h1
        refine ⟨hc.1, le_refl _, by simp, hc.2, ?_⟩
        intro k hk1 hk2; omega
      · exact Or.inl h1
    · rw [selectStep_present] at h0
      unfold stepPresent at h0
      split at h0
      · simp at h0
      · rename_i hc
        right
        have hi : support i = false := by
          cases hsi : support i with
          | false => rfl
          | true => simp [h0, hsi] at hc
        refine ⟨h0, by omega, by simp only [List.length_cons]; omega, hsup, ?_⟩
        intro k hk1 hk2
        by_cases hki : k = i
        · subst hki; exact hi
        · exact hmin k (by omega) hk2

/-- Without a transfer-capable family that lacks the graphics flag, the
transfer index is never assigned by the loop. -/
theorem selectLoop_transfer_unchanged :
    ∀ (ps : List QueueFamilyProperties) (i : Nat) (s : Sel),
      (∀ p ∈ ps, ¬ (hasFlag p.queueFlags eTransfer = true ∧
          hasFlag p.queueFlags eGraphics = false)) →
      (selectLoop support ps i s).transfer = s.transfer := by
  intro ps
  induction ps with
  | nil => intro i s _; rfl
  | cons p rest ih =>
    intro i s h
    rw [selectLoop, ih _ _ (fun q hq => h q (List.mem_cons_of_mem _ hq)), selectStep_transfer]
    unfold stepTransfer transferCond
    have hp := h p (List.mem_cons_self _ _)
    split
    · rename_i hc
      simp only [Bool.and_eq_true, Bool.not_eq_true_eq_eq_false,
        Bool.not_eq_eq_eq_not, Bool.not_true] at hc
      exact absurd ⟨hc.2, hc.1.2⟩ hp
    · rfl

end SelectLemmas

/-- The post-loop checks fail exactly when one of the three mandatory roles is unset. -/
theorem selectFinish_error_iff (s : Sel) :
    (∃ msg, selectFinish s = .error msg) ↔
      (s.graphics = none ∨ s.present = none ∨ s.compute = none) := by
  unfold selectFinish
  cases s.graphics <;> cases s.present <;> cases s.compute <;> simp

/-- On success the post-loop checks return the loop's choices, with the
graphics index standing in for an unset transfer index. -/
theorem selectFinish_ok (s : Sel) (r : QueueFamilies) (h : selectFinish s = .ok r) :
    s.graphics = some r.graphics ∧ s.present = some r.present ∧
      s.compute = some r.compute ∧ s.transfer.getD r.graphics = r.transfer := by
  unfold selectFinish at h
  cases hg : s.graphics <;> cases hp : s.present <;> cases hc : s.compute <;>
    cases ht : s.transfer <;> simp [hg, hp, hc, ht] at h <;> subst h <;> simp

/-! ## Queue family selection: results -/

/-- C1: on the three-family device (family 0 graphics only, family 1 without
flags and the only one the surface supports, family 2 compute and
sparse-binding) selection succeeds with graphics 0, present 1, transfer 0 and
compute 2. -/
theorem c1_scenario_assignment :
    selectQueueFamilies scenarioSupport scenarioFamilies =
      .ok { graphics := 0, present := 1, transfer := 0, compute := 2 } := by
  rfl

/-- C2: selection fails exactly when no family has the graphics flag, or no
family index supports the surface, or no family has the compute flag; and when
no family has the transfer flag without the graphics flag, a successful
selection gives the transfer role the selected graphics family. -/
theorem c2_failure_iff (support : Nat → Bool) (fams : List QueueFamilyProperties) :
    ((∃ msg, selectQueueFamilies support fams = .error msg) ↔
      ((¬ ∃ p ∈ fams, hasFlag p.queueFlags eGraphics = true) ∨
       (¬ ∃ i, i < fams.length ∧ support i = true) ∨
       (¬ ∃ p ∈ fams, hasFlag p.queueFlags eCompute = true))) ∧
    ((¬ ∃ p ∈ fams, hasFlag p.queueFlags eTransfer = true ∧
          hasFlag p.queueFlags eGraphics = false) →
      ∀ r, selectQueueFamilies support fams = .ok r → r.transfer = r.graphics) := by
  constructor
  · unfold selectQueueFamilies
    rw [selectFinish_error_iff]
    have hg := selectLoop_graphics_isSome support fams 0 Sel.init
    have hc := selectLoop_compute_isSome support fams 0 Sel.init
    have hp := selectLoop_present_none support fams 0 Sel.init
    have e1 : (selectLoop support fams 0 Sel.init).graphics = none ↔
        ¬ ∃ p ∈ fams, hasFlag p.queueFlags eGraphics = true := by
      rw [← Option.not_isSome_iff_eq_none, hg]
      simp [Sel.init]
    have e2 : (selectLoop support fams 0 Sel.init).compute = none ↔
        ¬ ∃ p ∈ fams, hasFlag p.queueFlags eCompute = true := by
      rw [← Option.not_isSome_iff_eq_none, hc]
      simp [Sel.init]
    have e3 : (selectLoop support fams 0 Sel.init).present = none ↔
        ¬ ∃ i, i < fams.length ∧ support i = true := by
      rw [hp]
      simp [Sel.init]
    rw [e1, e2, e3]
  · intro hno r hr
    unfold selectQueueFamilies at hr
    have h := selectFinish_ok _ r hr
    have ht := selectLoop_transfer_unchanged support fams 0 Sel.init
      (fun p hp hx => hno ⟨p, hp, hx⟩)
    rw [ht] at h
    simpa [Sel.init] using h.2.2.2.symm

/-- C3: after a successful selection the graphics family has the graphics
flag, the compute family has the compute flag, and the present family is the
lowest family index for which the surface-support query is true. -/
theorem c3_selected_capabilities (support : Nat → Bool) (fams : List QueueFamilyProperties)
    (r : QueueFamilies) (h : selectQueueFamilies support fams = .ok r) :
    (∃ p, fams[r.graphics]? = some p ∧ hasFlag p.queueFlags eGraphics = true) ∧
    (∃ p, fams[r.compute]? = some p ∧ hasFlag p.queueFlags eCompute = true) ∧
    r.present < fams.length ∧ support r.present = true ∧
    (∀ j, j < r.present → support j = false) := by
  unfold selectQueueFamilies at h
  obtain ⟨hg, hp, hc, _⟩ := selectFinish_ok _ r h
  refine ⟨?_, ?_, ?_⟩
  · rcases selectLoop_graphics_origin support fams 0 Sel.init _ hg with h0 | ⟨j, p, hj, hf, e⟩
    · simp [Sel.init] at h0
    · exact ⟨p, by rw [e]; simpa using hj, hf⟩
  · rcases selectLoop_compute_origin support fams 0 Sel.init _ hc with h0 | ⟨j, p, hj, hf, e⟩
    · simp [Sel.init] at h0
    · exact ⟨p, by rw [e]; simpa using hj, hf⟩
  · rcases selectLoop_present_origin support fams 0 Sel.init _ hp with h0 | ⟨_, _, hlt, hs, hmin⟩
    · simp [Sel.init] at h0
    · exact ⟨by omega, hs, fun j hj => hmin j (Nat.zero_le _) hj⟩

/-- Witness for C3 on the three-family scenario. -/
theorem c3_selected_capabilities_witness :
    (∃ p, scenarioFamilies[0]? = some p ∧ hasFlag p.queueFlags eGraphics = true) ∧
    (∃ p, scenarioFamilies[2]? = some p ∧ hasFlag p.queueFlags eCompute = true) ∧
    1 < scenarioFamilies.length ∧ scenarioSupport 1 = true ∧
    (∀ j, j < 1 → scenarioSupport j = false) :=
  c3_selected_capabilities scenarioSupport scenarioFamilies
    { graphics := 0, present := 1, transfer := 0, compute := 2 } rfl

/-! ## Frame pacing: lemmas -/

@[simp] theorem configure_swapchain_current_frame (c : RenderContext) (env : SurfaceEnv) :
    (configure_swapchain c env).1.m_current_frame = c.m_current_frame := rfl

@[simp] theorem selectSlot_current_frame (c : RenderContext) :
    (selectSlot c).m_current_frame = c.m_current_frame := rfl

@[simp] theorem acquired_current_frame (c : RenderContext) (v : Nat) :
    (acquired c v).m_current_frame = c.m_current_frame := rfl

@[simp] theorem advance_current_frame (c : RenderContext) :
    (advance c).m_current_frame = (c.m_current_frame + 1) % 2 := rfl

/-- The constructor leaves the slot index at 0. -/
theorem create_current_frame (support : Nat → Bool) (fams : List QueueFamilyProperties)
    (senv : SurfaceEnv) (c : RenderContext)
    (h : RenderContext.create support fams senv = .ok c) : c.m_current_frame = 0 := by
  unfold RenderContext.create at h
  split at h
  · simp at h
  · simp only [Except.ok.injEq] at h
    subst h
    rfl

/-- One call leaves the slot index alone or moves it to the other slot. -/
theorem render_frame_current_frame (c : RenderContext) (env : FrameEnv) :
    (render_frame c env).ctx.m_current_frame = c.m_current_frame ∨
      (render_frame c env).ctx.m_current_frame = (c.m_current_frame + 1) % 2 := by
  unfold render_frame acquireHandler frameBody
  repeat' split
  all_goals simp

/-- The slot index stays below 2 along every sequence of calls. -/
theorem render_frames_current_frame_lt :
    ∀ (envs : List FrameEnv) (c : RenderContext), c.m_current_frame < 2 →
      (render_frames c envs).m_current_frame < 2 := by
  intro envs
  induction envs with
  | nil => intro c h; exact h
  | cons env rest ih =>
    intro c h
    apply ih
    rcases render_frame_current_frame c env with h1 | h1
    · omega
    · rw [h1]; exact Nat.mod_lt _ (by decide)

/-- A call that invoked the callback and returned has moved the slot index on. -/
theorem render_frame_advances (c : RenderContext) (env : FrameEnv)
    (hcb : ∃ info, FrameOp.callback info ∈ (render_frame c env).trace)
    (hret : (render_frame c env).outcome = .returned) :
    (render_frame c env).ctx.m_current_frame = (c.m_current_frame + 1) % 2 := by
  revert hcb hret
  unfold render_frame acquireHandler frameBody
  repeat' split
  all_goals simp

/-- Soundness of the scan `precededBy`. -/
theorem precededBy_sound (p q : FrameOp → Bool) :
    ∀ (tr : List FrameOp) (seen : Bool), precededBy p q tr seen = true →
      ∀ (j : Nat) (op : FrameOp), tr[j]? = some op → q op = true →
        seen = true ∨ ∃ i y, i < j ∧ tr[i]? = some y ∧ p y = true := by
  intro tr
  induction tr with
  | nil => intro seen _ j op h; simp at h
  | cons x rest ih =>
    intro seen h j op hj hq
    simp only [precededBy, Bool.and_eq_true, Bool.or_eq_true, Bool.not_eq_true_eq_eq_false] at h
    cases j with
    | zero =>
      simp only [List.getElem?_cons_zero, Option.some.injEq] at hj
      subst hj
      rcases h.1 with h1 | h1
      · rw [hq] at h1; exact absurd h1 (by decide)
      · exact Or.inl h1
    | succ k =>
      simp only [List.getElem?_cons_succ] at hj
      rcases ih (seen || p x) h.2 k op hj hq with h1 | ⟨i, y, hi, hy, hp⟩
      · simp only [Bool.or_eq_true] at h1
        rcases h1 with h1 | h1
        · exact Or.inl h1
        · exact Or.inr ⟨0, x, by omega, by simp, h1⟩
      · exact Or.inr ⟨i + 1, y, by omega, by simpa using hy, hp⟩

/-- In every trace the fence reset of the slot comes before each callback. -/
theorem render_frame_reset_scan (c : RenderContext) (env : FrameEnv) :
    precededBy (fun op => op == FrameOp.resetFences c.m_current_frame) FrameOp.isCallback
      (render_frame c env).trace false = true := by
  unfold render_frame acquireHandler frameBody
  repeat' split
  all_goals simp [precededBy, FrameOp.isCallback]

/-- In every trace a callback comes before each present. -/
theorem render_frame_present_scan (c : RenderContext) (env : FrameEnv) :
    precededBy FrameOp.isCallback FrameOp.isPresent (render_frame c env).trace false = true := by
  unfold render_frame acquireHandler frameBody
  repeat' split
  all_goals simp [precededBy, FrameOp.isCallback, FrameOp.isPresent]

/-- The constructor builds `sampleContext` for the three-family scenario. -/
theorem create_sampleContext :
    RenderContext.create scenarioSupport scenarioFamilies sampleSurface = .ok sampleContext := by
  rfl

/-! ## Frame pacing: results -/

/-- A call that throws leaves the slot index unchanged. -/
theorem render_frame_keeps_on_throw (c : RenderContext) (env : FrameEnv)
    (hthrow : (render_frame c env).outcome ≠ .returned) :
    (render_frame c env).ctx.m_current_frame = c.m_current_frame := by
  revert hthrow
  unfold render_frame acquireHandler frameBody
  repeat' split
  all_goals simp

/-- C4 fails as stated: the callback is invoked and the present call is
issued, but present throws an error other than out-of-date; the call is
aborted and the slot index stays 0 instead of moving to 1. -/
theorem c4_aborted_frame_counterexample :
    RenderContext.create scenarioSupport scenarioFamilies sampleSurface = .ok sampleContext ∧
    (render_frame sampleContext envPresentOther).trace =
      [.waitForFences 0, .acquireNextImageKHR 0, .resetFences 0,
        .callback ⟨0, 0, 0, true⟩, .presentKHR 0 0] ∧
    (render_frame sampleContext envPresentOther).outcome = .threw .other ∧
    (render_frame sampleContext envPresentOther).ctx.m_current_frame = 0 ∧
    (render_frame sampleContext envPresentOther).ctx.m_current_frame ≠
      (sampleContext.m_current_frame + 1) % MAX_FRAMES_IN_FLIGHT := by
  refine ⟨rfl, ?_⟩
  decide

/-- C4 as amended: for a context built by the constructor and every sequence
of `render_frame` calls, the slot index starts at 0 and is 0 or 1 after the
sequence; a further call that invokes the callback and returns leaves the
index at (previous index + 1) mod 2, and a further call that throws (also
after it invoked the callback) leaves the index unchanged. -/
theorem c4_slot_index (support : Nat → Bool) (fams : List QueueFamilyProperties)
    (senv : SurfaceEnv) (c : RenderContext)
    (h : RenderContext.create support fams senv = .ok c)
    (envs : List FrameEnv) (env : FrameEnv) :
    c.m_current_frame = 0 ∧
    ((render_frames c envs).m_current_frame = 0 ∨ (render_frames c envs).m_current_frame = 1) ∧
    ((∃ info, FrameOp.callback info ∈ (render_frame (render_frames c envs) env).trace) →
      (render_frame (render_frames c envs) env).outcome = .returned →
      (render_frame (render_frames c envs) env).ctx.m_current_frame =
        ((render_frames c envs).m_current_frame + 1) % MAX_FRAMES_IN_FLIGHT) ∧
    ((render_frame (render_frames c envs) env).outcome ≠ .returned →
      (render_frame (render_frames c envs) env).ctx.m_current_frame =
        (render_frames c envs).m_current_frame) := by
  have h0 := create_current_frame support fams senv c h
  have hlt := render_frames_current_frame_lt envs c (by omega)
  refine ⟨h0, by omega, ?_, ?_⟩
  · intro hcb hret
    exact render_frame_advances _ env hcb hret
  · intro hthrow
    exact render_frame_keeps_on_throw _ env hthrow

/-- Witness for C4 as amended: two completed frames on the sample context;
the third call runs in slot 0 again and ends in slot 1. -/
theorem c4_slot_index_witness :
    RenderContext.create scenarioSupport scenarioFamilies sampleSurface = .ok sampleContext ∧
    sampleContext.m_current_frame = 0 ∧
    (render_frames sampleContext [envOk]).m_current_frame = 1 ∧
    (render_frames sampleContext [envOk, envOk]).m_current_frame = 0 ∧
    (render_frame (render_frames sampleContext [envOk, envOk]) envOk).ctx.m_current_frame = 1 :=
  ⟨create_sampleContext, by decide, by decide, by decide,
    (c4_slot_index scenarioSupport scenarioFamilies sampleSurface sampleContext
      create_sampleContext [envOk, envOk] envOk).2.2.1 ⟨⟨0, 0, 0, false⟩, by decide⟩
      (by decide)⟩

/-- C5: in the trace of every `render_frame` call the wait on the current
slot's fence is the first operation; any later operation (acquire, rebuild,
fence reset, callback, present) occurs only if that wait returned success;
acquires and fence resets use the current slot; every callback has the slot's
fence reset before it and every present has a callback before it. -/
theorem c5_wait_first (c : RenderContext) (env : FrameEnv) :
    (render_frame c env).trace.head? = some (FrameOp.waitForFences c.m_current_frame) ∧
    (∀ op ∈ (render_frame c env).trace.tail, env.waitForFences = .returned .eSuccess) ∧
    (∀ op ∈ (render_frame c env).trace.tail,
      (op.isAcquire = true → op = .acquireNextImageKHR c.m_current_frame) ∧
      (op.isReset = true → op = .resetFences c.m_current_frame)) ∧
    (∀ j info, (render_frame c env).trace[j]? = some (FrameOp.callback info) →
      ∃ i : Nat,
        i < j ∧ (render_frame c env).trace[i]? = some (FrameOp.resetFences c.m_current_frame)) ∧
    (∀ j k v, (render_frame c env).trace[j]? = some (FrameOp.presentKHR k v) →
      ∃ (i : Nat) (info : FrameInfo),
        i < j ∧ (render_frame c env).trace[i]? = some (FrameOp.callback info)) := by
  refine ⟨?_, ?_, ?_, ?_, ?_⟩
  · unfold render_frame acquireHandler frameBody
    repeat' split
    all_goals simp
  · unfold render_frame acquireHandler frameBody
    repeat' split
    all_goals simp_all
  · unfold render_frame acquireHandler frameBody
    repeat' split
    all_goals simp [FrameOp.isAcquire, FrameOp.isReset]
  · intro j info hj
    rcases precededBy_sound _ _ _ _ (render_frame_reset_scan c env) j _ hj rfl with
      h | ⟨i, y, hi, hy, hp⟩
    · exact absurd h (by decide)
    · refine ⟨i, hi, ?_⟩
      simp only [beq_iff_eq] at hp
      rw [hy, hp]
  · intro j k v hj
    rcases precededBy_sound _ _ _ _ (render_frame_present_scan c env) j _ hj rfl with
      h | ⟨i, y, hi, hy, hp⟩
    · exact absurd h (by decide)
    · cases y with
      | callback info => exact ⟨i, info, hi, hy⟩
      | _ => simp [FrameOp.isCallback] at hp

/-- When the fence wait succeeds, the first acquire throws out-of-date and the
acquire re-issued by the handler returns, `render_frame` rebuilds the chain
once and returns; the callback is not invoked and nothing is presented. -/
theorem render_frame_skip_frame (c : RenderContext) (env : FrameEnv)
    (hw : env.waitForFences = .returned .eSuccess)
    (h0 : env.acquireNextImageKHR 0 = .threw .outOfDateKHRError)
    (h1 : ∃ r, env.acquireNextImageKHR 1 = .returned r) :
    (render_frame c env).outcome = .returned ∧
    (render_frame c env).trace =
      [.waitForFences c.m_current_frame, .acquireNextImageKHR c.m_current_frame,
        .configure_swapchain, .acquireNextImageKHR c.m_current_frame] ∧
    (render_frame c env).trace.countP FrameOp.isConfigure = 1 ∧
    (∀ info, FrameOp.callback info ∉ (render_frame c env).trace) ∧
    (∀ k v, FrameOp.presentKHR k v ∉ (render_frame c env).trace) ∧
    (render_frame c env).ctx.m_swapchain = some (env.surface 0).swapchain := by
  obtain ⟨r, h1⟩ := h1
  simp [render_frame, acquireHandler, hw, h0, h1, FrameOp.isConfigure, configure_swapchain]

/-- C6, code evaluated at the failing input: the first acquire throws
out-of-date, the chain is rebuilt, and the acquire that the handler issues
next throws as well; `render_frame` then ends with that exception instead of
returning. The callback is not invoked and nothing is presented. -/
theorem c6_handler_acquire_throws :
    envAcquireAlwaysOutOfDate.waitForFences = .returned .eSuccess ∧
    envAcquireAlwaysOutOfDate.acquireNextImageKHR 0 = .threw .outOfDateKHRError ∧
    (render_frame sampleContext envAcquireAlwaysOutOfDate).trace =
      [.waitForFences 0, .acquireNextImageKHR 0, .configure_swapchain,
        .acquireNextImageKHR 0] ∧
    (render_frame sampleContext envAcquireAlwaysOutOfDate).outcome =
      .threw .outOfDateKHRError ∧
    (render_frame sampleContext envAcquireAlwaysOutOfDate).outcome ≠ .returned ∧
    (render_frame sampleContext envAcquireAlwaysOutOfDate).trace.countP FrameOp.isCallback = 0 ∧
    (render_frame sampleContext envAcquireAlwaysOutOfDate).trace.countP FrameOp.isPresent = 0 := by
  decide

/-- C7, code evaluated at the failing input: the first acquire returns
suboptimal, the retry throws out-of-date, and the handler issues a third
acquire after a second rebuild. -/
theorem c7_three_acquires :
    (render_frame sampleContext envRetryOutOfDate).trace =
      [.waitForFences 0, .acquireNextImageKHR 0, .configure_swapchain,
        .acquireNextImageKHR 0, .configure_swapchain, .acquireNextImageKHR 0] ∧
    (render_frame sampleContext envRetryOutOfDate).trace.countP FrameOp.isAcquire = 3 ∧
    (render_frame sampleContext envRetryOutOfDate).trace.countP FrameOp.isConfigure = 2 := by
  decide

/-- C8 fails as stated: the retry issued after the rebuild throws
out-of-date, yet `render_frame` returns normally. -/
theorem c8_retry_caught_counterexample :
    envRetryOutOfDate.waitForFences = .returned .eSuccess ∧
    envRetryOutOfDate.acquireNextImageKHR 0 = .returned (.eSuboptimalKHR, 0) ∧
    envRetryOutOfDate.acquireNextImageKHR 1 = .threw .outOfDateKHRError ∧
    (render_frame sampleContext envRetryOutOfDate).trace.take 4 =
      [.waitForFences 0, .acquireNextImageKHR 0, .configure_swapchain,
        .acquireNextImageKHR 0] ∧
    (render_frame sampleContext envRetryOutOfDate).outcome = .returned := by
  decide

/-- C8 as amended: when the first acquire returns a non-success status and
the retry after the rebuild throws, an error other than out-of-date is
propagated; out-of-date is caught: the chain is rebuilt a second time, the
callback is not invoked, nothing is presented, the slot index is unchanged,
and the call returns unless a later device call throws. -/
theorem c8_retry_errors (c : RenderContext) (env : FrameEnv) (r : Result) (v : Nat)
    (e : Thrown)
    (hw : env.waitForFences = .returned .eSuccess)
    (h0 : env.acquireNextImageKHR 0 = .returned (r, v))
    (hr : r ≠ .eSuccess)
    (h1 : env.acquireNextImageKHR 1 = .threw e) :
    (e ≠ .outOfDateKHRError →
      (render_frame c env).outcome = .threw e ∧
      (render_frame c env).trace =
        [.waitForFences c.m_current_frame, .acquireNextImageKHR c.m_current_frame,
          .configure_swapchain, .acquireNextImageKHR c.m_current_frame]) ∧
    (e = .outOfDateKHRError →
      (render_frame c env).trace.take 5 =
        [.waitForFences c.m_current_frame, .acquireNextImageKHR c.m_current_frame,
          .configure_swapchain, .acquireNextImageKHR c.m_current_frame,
          .configure_swapchain] ∧
      (render_frame c env).trace.countP FrameOp.isConfigure = 2 ∧
      (∀ info, FrameOp.callback info ∉ (render_frame c env).trace) ∧
      (∀ k w, FrameOp.presentKHR k w ∉ (render_frame c env).trace) ∧
      (render_frame c env).ctx.m_current_frame = c.m_current_frame ∧
      ((render_frame c env).outcome = .returned ∨
        ∃ e2, env.acquireNextImageKHR 2 = .threw e2 ∧
          (render_frame c env).outcome = .threw e2)) := by
  constructor
  · intro he
    cases e <;> simp_all [render_frame]
  · intro he
    subst he
    cases h2 : env.acquireNextImageKHR 2 <;>
      simp [render_frame, acquireHandler, hw, h0, hr, h1, h2, FrameOp.isConfigure]

/-- Witness for C8 as amended, on the sample context. -/
theorem c8_retry_errors_witness :
    envRetryOutOfDate.waitForFences = .returned .eSuccess ∧
    envRetryOutOfDate.acquireNextImageKHR 0 = .returned (.eSuboptimalKHR, 0) ∧
    Result.eSuboptimalKHR ≠ Result.eSuccess ∧
    envRetryOutOfDate.acquireNextImageKHR 1 = .threw .outOfDateKHRError ∧
    (render_frame sampleContext envRetryOutOfDate).trace.countP FrameOp.isConfigure = 2 ∧
    (render_frame sampleContext envRetryOutOfDate).ctx.m_current_frame = 0 :=
  have h := (c8_retry_errors sampleContext envRetryOutOfDate .eSuboptimalKHR 0
    .outOfDateKHRError rfl rfl (by decide) rfl).2 rfl
  ⟨rfl, rfl, by decide, rfl, h.2.1, h.2.2.2.2.1⟩

/-- C9: if the present call is reached and throws out-of-date, the call
returns normally, the slot index moves to (index + 1) mod 2, the callback was
invoked exactly once, and the trace ends with that present followed by
exactly one chain rebuild. -/
theorem c9_present_out_of_date (c : RenderContext) (env : FrameEnv)
    (hp : env.presentKHR = .threw .outOfDateKHRError)
    (hreach : ∃ k v, FrameOp.presentKHR k v ∈ (render_frame c env).trace) :
    (render_frame c env).outcome = .returned ∧
    (render_frame c env).ctx.m_current_frame = (c.m_current_frame + 1) % MAX_FRAMES_IN_FLIGHT ∧
    (render_frame c env).trace.countP FrameOp.isCallback = 1 ∧
    (render_frame c env).trace.countP FrameOp.isPresent = 1 ∧
    (∃ v, (render_frame c env).trace.drop ((render_frame c env).trace.length - 2) =
      [FrameOp.presentKHR c.m_current_frame v, FrameOp.configure_swapchain]) := by
  revert hreach
  unfold render_frame acquireHandler frameBody
  repeat' split
  all_goals simp_all [FrameOp.isCallback, FrameOp.isPresent, MAX_FRAMES_IN_FLIGHT]

/-- Witness for C9 on the sample context. -/
theorem c9_present_out_of_date_witness :
    envPresentOutOfDate.presentKHR = .threw .outOfDateKHRError ∧
    FrameOp.presentKHR 0 0 ∈ (render_frame sampleContext envPresentOutOfDate).trace ∧
    (render_frame sampleContext envPresentOutOfDate).outcome = .returned ∧
    (render_frame sampleContext envPresentOutOfDate).ctx.m_current_frame = 1 ∧
    (render_frame sampleContext envPresentOutOfDate).trace.countP FrameOp.isCallback = 1 :=
  have h := c9_present_out_of_date sampleContext envPresentOutOfDate rfl ⟨0, 0, by decide⟩
  ⟨rfl, by decide, h.1, h.2.1, h.2.2.1⟩

/-- C10 fails as stated: present returns the suboptimal status and the call
ends without any chain rebuild. -/
theorem c10_present_suboptimal_counterexample :
    envPresentSuboptimal.presentKHR = .returned .eSuboptimalKHR ∧
    (render_frame sampleContext envPresentSuboptimal).trace =
      [.waitForFences 0, .acquireNextImageKHR 0, .resetFences 0,
        .callback ⟨0, 0, 0, true⟩, .presentKHR 0 0] ∧
    FrameOp.configure_swapchain ∉ (render_frame sampleContext envPresentSuboptimal).trace ∧
    (render_frame sampleContext envPresentSuboptimal).outcome = .returned := by
  decide

/-- C10 as amended: when the present call is reached and returns a status
(success or suboptimal), nothing follows it: the present is the last
operation of the call, the slot index moves on and the call returns; the
chain is rebuilt in this call exactly when the first acquire returned a
non-success status, and then before the retry. -/
theorem c10_present_status_ignored (c : RenderContext) (env : FrameEnv) (r : Result)
    (hp : env.presentKHR = .returned r)
    (hreach : ∃ k v, FrameOp.presentKHR k v ∈ (render_frame c env).trace) :
    (render_frame c env).outcome = .returned ∧
    (render_frame c env).ctx.m_current_frame = (c.m_current_frame + 1) % MAX_FRAMES_IN_FLIGHT ∧
    (∃ v, (render_frame c env).trace.drop ((render_frame c env).trace.length - 1) =
      [FrameOp.presentKHR c.m_current_frame v]) ∧
    (∀ r0 v0, env.acquireNextImageKHR 0 = .returned (r0, v0) → r0 = .eSuccess →
      FrameOp.configure_swapchain ∉ (render_frame c env).trace) ∧
    (∀ r0 v0, env.acquireNextImageKHR 0 = .returned (r0, v0) → r0 ≠ .eSuccess →
      (render_frame c env).trace.take 4 =
        [.waitForFences c.m_current_frame, .acquireNextImageKHR c.m_current_frame,
          .configure_swapchain, .acquireNextImageKHR c.m_current_frame] ∧
      (render_frame c env).trace.countP FrameOp.isConfigure = 1) := by
  revert hreach
  unfold render_frame acquireHandler frameBody
  repeat' split
  all_goals simp_all [FrameOp.isConfigure, MAX_FRAMES_IN_FLIGHT]
  all_goals
    intro r0 v0 h
    subst h
    simp_all

/-- Witness for C10 as amended, on the sample context. -/
theorem c10_present_status_ignored_witness :
    envPresentSuboptimal.presentKHR = .returned .eSuboptimalKHR ∧
    FrameOp.presentKHR 0 0 ∈ (render_frame sampleContext envPresentSuboptimal).trace ∧
    (render_frame sampleContext envPresentSuboptimal).outcome = .returned ∧
    (render_frame sampleContext envPresentSuboptimal).ctx.m_current_frame = 1 :=
  have h := c10_present_status_ignored sampleContext envPresentSuboptimal .eSuboptimalKHR rfl
    ⟨0, 0, by decide⟩
  ⟨rfl, by decide, h.1, h.2.1⟩

/-- C11: if the wait on the slot's fence does not return success,
`render_frame` throws (the runtime error of line 365 when the wait returned
another status) with the wait as its only operation: no acquire, fence reset,
callback or present is issued, and the slot index and the pending
chain-reloaded flag are unchanged. -/
theorem c11_wait_failure (c : RenderContext) (env : FrameEnv)
    (h : env.waitForFences ≠ .returned .eSuccess) :
    (∃ err, (render_frame c env).outcome = .threw err ∧
      ∀ w, env.waitForFences = .returned w → err = .runtime_error) ∧
    (render_frame c env).trace = [.waitForFences c.m_current_frame] ∧
    (render_frame c env).ctx.m_current_frame = c.m_current_frame ∧
    (render_frame c env).ctx.m_swapchain_reloaded = c.m_swapchain_reloaded := by
  unfold render_frame
  cases hw : env.waitForFences with
  | threw err => simp [selectSlot]
  | returned w =>
    cases w <;> simp_all [selectSlot]

/-- Witness for C11: the wait returns the timeout status. -/
theorem c11_wait_failure_witness :
    envWaitTimeout.waitForFences ≠ .returned .eSuccess ∧
    (render_frame sampleContext envWaitTimeout).outcome = .threw .runtime_error ∧
    (render_frame sampleContext envWaitTimeout).trace = [.waitForFences 0] ∧
    (render_frame sampleContext envWaitTimeout).ctx.m_current_frame = 0 ∧
    (render_frame sampleContext envWaitTimeout).ctx.m_swapchain_reloaded = true :=
  have h := c11_wait_failure sampleContext envWaitTimeout (by decide)
  ⟨by decide, by decide, h.2.1, h.2.2.1, h.2.2.2⟩

/-! ## Swapchain configuration: lemmas -/

/-- The per-image loop appends one view per image. -/
theorem imageLoop_views (env : SurfaceEnv) (g : Nat) :
    ∀ (images : List Nat) (i : Nat) (v l o : List Nat),
      (imageLoop env g images i (v, l, o)).1 = v ++ images.map env.createImageView := by
  intro images
  induction images with
  | nil => intro i v l o; simp [imageLoop]
  | cons image rest ih =>
    intro i v l o
    rw [imageLoop, ih]
    simp

/-- The per-image loop writes the undefined layout at the visited indices. -/
theorem imageLoop_layouts (env : SurfaceEnv) (g : Nat) :
    ∀ (images : List Nat) (i : Nat) (v l o : List Nat) (k : Nat),
      (imageLoop env g images i (v, l, o)).2.1[k]? =
        if i ≤ k ∧ k < i + images.length ∧ k < l.length then some eUndefined else l[k]? := by
  intro images
  induction images with
  | nil =>
    intro i v l o k
    have h2 : ¬ (i ≤ k ∧ k < i ∧ k < l.length) := by omega
    simp [imageLoop, h2]
  | cons image rest ih =>
    intro i v l o k
    rw [imageLoop, ih, List.getElem?_set]
    simp only [List.length_set, List.length_cons]
    by_cases hik : i = k
    · subst hik
      by_cases hl : i < l.length
      · simp [hl]
      · have hn : l[i]? = none := List.getElem?_eq_none (by omega)
        simp [hl, hn]
    · by_cases h1 : i + 1 ≤ k ∧ k < i + 1 + rest.length ∧ k < l.length
      · have h2 : i ≤ k ∧ k < i + (rest.length + 1) ∧ k < l.length := by omega
        simp [h1, h2]
      · have h2 : ¬ (i ≤ k ∧ k < i + (rest.length + 1) ∧ k < l.length) := by omega
        simp [h1, h2, hik]

/-- The per-image loop writes the graphics family at the visited indices. -/
theorem imageLoop_owners (env : SurfaceEnv) (g : Nat) :
    ∀ (images : List Nat) (i : Nat) (v l o : List Nat) (k : Nat),
      (imageLoop env g images i (v, l, o)).2.2[k]? =
        if i ≤ k ∧ k < i + images.length ∧ k < o.length then some g else o[k]? := by
  intro images
  induction images with
  | nil =>
    intro i v l o k
    have h2 : ¬ (i ≤ k ∧ k < i ∧ k < o.length) := by omega
    simp [imageLoop, h2]
  | cons image rest ih =>
    intro i v l o k
    rw [imageLoop, ih, List.getElem?_set]
    simp only [List.length_set, List.length_cons]
    by_cases hik : i = k
    · subst hik
      by_cases hl : i < o.length
      · simp [hl]
      · have hn : o[i]? = none := List.getElem?_eq_none (by omega)
        simp [hl, hn]
    · by_cases h1 : i + 1 ≤ k ∧ k < i + 1 + rest.length ∧ k < o.length
      · have h2 : i ≤ k ∧ k < i + (rest.length + 1) ∧ k < o.length := by omega
        simp [h1, h2]
      · have h2 : ¬ (i ≤ k ∧ k < i + (rest.length + 1) ∧ k < o.length) := by omega
        simp [h1, h2, hik]

/-- Resizing gives the requested length. -/
theorem resize_length (xs : List Nat) (n : Nat) : (resize xs n).length = n := by
  simp [resize]
  omega

/-- After the per-image loop over a layout vector of the image count, every
entry is the undefined layout. -/
theorem imageLoop_layouts_full (env : SurfaceEnv) (g : Nat) (images v l o : List Nat)
    (hl : l.length = images.length) :
    (imageLoop env g images 0 (v, l, o)).2.1 = List.replicate images.length eUndefined := by
  apply List.ext_getElem?
  intro k
  rw [imageLoop_layouts, List.getElem?_replicate]
  by_cases hk : k < images.length
  · have h2 : 0 ≤ k ∧ k < 0 + images.length ∧ k < l.length := by omega
    simp [hk, h2]
  · have h2 : ¬ (0 ≤ k ∧ k < 0 + images.length ∧ k < l.length) := by omega
    have hn : l[k]? = none := List.getElem?_eq_none (by omega)
    simp [hk, h2, hn]

/-- After the per-image loop over an owner vector of the image count, every
entry is the graphics family. -/
theorem imageLoop_owners_full (env : SurfaceEnv) (g : Nat) (images v l o : List Nat)
    (ho : o.length = images.length) :
    (imageLoop env g images 0 (v, l, o)).2.2 = List.replicate images.length g := by
  apply List.ext_getElem?
  intro k
  rw [imageLoop_owners, List.getElem?_replicate]
  by_cases hk : k < images.length
  · have h2 : 0 ≤ k ∧ k < 0 + images.length ∧ k < o.length := by omega
    simp [hk, h2]
  · have h2 : ¬ (0 ≤ k ∧ k < 0 + images.length ∧ k < o.length) := by omega
    have hn : o[k]? = none := List.getElem?_eq_none (by omega)
    simp [hk, h2, hn]

@[simp] theorem configure_swapchain_swapchain (c : RenderContext) (env : SurfaceEnv) :
    (configure_swapchain c env).1.m_swapchain = some env.swapchain := rfl

@[simp] theorem configure_swapchain_reloaded (c : RenderContext) (env : SurfaceEnv) :
    (configure_swapchain c env).1.m_swapchain_reloaded = true := rfl

@[simp] theorem configure_swapchain_queue_families (c : RenderContext) (env : SurfaceEnv) :
    (configure_swapchain c env).1.m_queue_families = c.m_queue_families := rfl

/-- The constructor leaves a chain handle in the context. -/
theorem create_swapchain_isSome (support : Nat → Bool) (fams : List QueueFamilyProperties)
    (senv : SurfaceEnv) (c : RenderContext)
    (h : RenderContext.create support fams senv = .ok c) : c.m_swapchain.isSome = true := by
  unfold RenderContext.create at h
  split at h
  · simp at h
  · simp only [Except.ok.injEq] at h
    subst h
    rfl

/-- A call of `render_frame` never removes the chain handle. -/
theorem render_frame_swapchain_isSome (c : RenderContext) (env : FrameEnv)
    (h : c.m_swapchain.isSome = true) : (render_frame c env).ctx.m_swapchain.isSome = true := by
  unfold render_frame acquireHandler frameBody
  repeat' split
  all_goals simp_all [selectSlot, acquired, advance]

/-! ## Swapchain configuration: results -/

/-- C12: after `configure_swapchain`, run on a context in which a missing
chain handle comes with an empty view list (the state at construction; later
the handle is never missing), the chain images are the reported ones, the
numbers of image views, of last-known-layout entries and of last-known-owner
entries all equal the number of images, every last-known layout is the
undefined layout and every last-known owner is the graphics family. The
context keeps no access mask per image. -/
theorem c12_rebuild_resets (c : RenderContext) (env : SurfaceEnv)
    (hinv : c.m_swapchain = none → c.m_swapchain_image_views = []) :
    (configure_swapchain c env).1.m_swapchain_images = env.images ∧
    (configure_swapchain c env).1.m_swapchain_image_views.length =
      (configure_swapchain c env).1.m_swapchain_images.length ∧
    (configure_swapchain c env).1.m_swapchain_image_last_layout.length =
      (configure_swapchain c env).1.m_swapchain_images.length ∧
    (configure_swapchain c env).1.m_swapchain_image_last_owner.length =
      (configure_swapchain c env).1.m_swapchain_images.length ∧
    (configure_swapchain c env).1.m_swapchain_image_last_layout =
      List.replicate (configure_swapchain c env).1.m_swapchain_images.length eUndefined ∧
    (configure_swapchain c env).1.m_swapchain_image_last_owner =
      List.replicate (configure_swapchain c env).1.m_swapchain_images.length
        c.m_queue_families.graphics := by
  have hl := imageLoop_layouts_full env c.m_queue_families.graphics env.images
    (match (swapchainCreateInfo c env).oldSwapchain with
      | some _ => []
      | none => c.m_swapchain_image_views)
    (resize c.m_swapchain_image_last_layout env.images.length)
    (resize c.m_swapchain_image_last_owner env.images.length) (resize_length _ _)
  have ho := imageLoop_owners_full env c.m_queue_families.graphics env.images
    (match (swapchainCreateInfo c env).oldSwapchain with
      | some _ => []
      | none => c.m_swapchain_image_views)
    (resize c.m_swapchain_image_last_layout env.images.length)
    (resize c.m_swapchain_image_last_owner env.images.length) (resize_length _ _)
  have hv : (match (swapchainCreateInfo c env).oldSwapchain with
      | some _ => ([] : List Nat)
      | none => c.m_swapchain_image_views) = [] := by
    cases hs : c.m_swapchain with
    | none => simp [swapchainCreateInfo, hs, hinv hs]
    | some old => simp [swapchainCreateInfo, hs]
  refine ⟨rfl, ?_, ?_, ?_, ?_, ?_⟩
  · show (imageLoop _ _ _ _ _).1.length = env.images.length
    rw [imageLoop_views, hv]
    simp
  · show (imageLoop _ _ _ _ _).2.1.length = env.images.length
    rw [hl]; simp
  · show (imageLoop _ _ _ _ _).2.2.length = env.images.length
    rw [ho]; simp
  · exact hl
  · exact ho

/-- Witness for C12: a rebuild of the sample context on a surface that now
reports two images. -/
theorem c12_rebuild_resets_witness :
    (sampleContext.m_swapchain = none → sampleContext.m_swapchain_image_views = []) ∧
    (configure_swapchain sampleContext twoImageSurface).1.m_swapchain_image_views.length = 2 ∧
    (configure_swapchain sampleContext twoImageSurface).1.m_swapchain_image_last_layout =
      [eUndefined, eUndefined] ∧
    (configure_swapchain sampleContext twoImageSurface).1.m_swapchain_image_last_owner =
      [0, 0] :=
  have h := c12_rebuild_resets sampleContext twoImageSurface (by decide)
  ⟨by decide, h.2.1, h.2.2.2.2.1, h.2.2.2.2.2⟩

/-! ## The reload flag along call sequences: lemmas -/

theorem reloadPending_append :
    ∀ (a b : List FrameOp) (p : Bool),
      reloadPending (a ++ b) p = reloadPending b (reloadPending a p) := by
  intro a
  induction a with
  | nil => intro b p; rfl
  | cons op rest ih =>
    intro b p
    cases op <;> simp [reloadPending, ih]

theorem reloadReported_append :
    ∀ (a b : List FrameOp) (p : Bool),
      reloadReported (a ++ b) p =
        (reloadReported a p && reloadReported b (reloadPending a p)) := by
  intro a
  induction a with
  | nil => intro b p; simp [reloadReported, reloadPending]
  | cons op rest ih =>
    intro b p
    cases op <;> simp [reloadReported, reloadPending, ih, Bool.and_assoc]

/-- Within one call every callback receives the pending flag, and a call that
returns leaves in the context the flag the scan computes. -/
theorem render_frame_reload_scan (c : RenderContext) (env : FrameEnv) :
    reloadReported (render_frame c env).trace c.m_swapchain_reloaded = true ∧
    ((render_frame c env).outcome = .returned →
      reloadPending (render_frame c env).trace c.m_swapchain_reloaded =
        (render_frame c env).ctx.m_swapchain_reloaded) := by
  unfold render_frame acquireHandler frameBody
  repeat' split
  all_goals
    simp [reloadReported, reloadPending, frameInfoOf, acquired, advance, selectSlot]

/-- Along a sequence of calls that all return, every callback receives the
pending flag and the context holds the flag the scan computes. -/
theorem frames_reload_scan :
    ∀ (envs : List FrameEnv) (c : RenderContext), allReturned c envs = true →
      reloadReported (frames_trace c envs) c.m_swapchain_reloaded = true ∧
      reloadPending (frames_trace c envs) c.m_swapchain_reloaded =
        (render_frames c envs).m_swapchain_reloaded := by
  intro envs
  induction envs with
  | nil => intro c _; simp [frames_trace, reloadReported, reloadPending, render_frames]
  | cons env rest ih =>
    intro c h
    simp only [allReturned, Bool.and_eq_true, beq_iff_eq] at h
    obtain ⟨h1, h2⟩ := render_frame_reload_scan c env
    have h3 := h2 h.1
    obtain ⟨h4, h5⟩ := ih (render_frame c env).ctx h.2
    simp only [frames_trace, render_frames, reloadReported_append, reloadPending_append, h1,
      h3, h4, h5, Bool.and_self]
    exact ⟨trivial, trivial⟩

/-- With a rebuild pending, the first callback of a trace receives `true`. -/
theorem reloadReported_first_true :
    ∀ (tr : List FrameOp), reloadReported tr true = true →
      ∀ (j : Nat) (info : FrameInfo), tr[j]? = some (FrameOp.callback info) →
        (∀ k info2, k < j → tr[k]? ≠ some (FrameOp.callback info2)) →
        info.swapchain_reloaded = true := by
  intro tr
  induction tr with
  | nil => intro _ j info hj; simp at hj
  | cons op rest ih =>
    intro h j info hj hno
    cases j with
    | zero =>
      simp only [List.getElem?_cons_zero, Option.some.injEq] at hj
      subst hj
      simp only [reloadReported, Bool.and_eq_true, beq_iff_eq] at h
      exact h.1
    | succ k =>
      simp only [List.getElem?_cons_succ] at hj
      have hrest : reloadReported rest true = true := by
        cases op with
        | callback info0 => exact absurd (by simp) (hno 0 info0 (by omega))
        | _ => simpa [reloadReported] using h
      apply ih hrest k info hj
      intro m info2 hm
      have := hno (m + 1) info2 (by omega)
      simpa using this

/-- With nothing pending, a callback with no rebuild and no callback before
it receives `false`. -/
theorem reloadReported_first_false :
    ∀ (tr : List FrameOp), reloadReported tr false = true →
      ∀ (j : Nat) (info : FrameInfo), tr[j]? = some (FrameOp.callback info) →
        (∀ k, k < j → tr[k]? ≠ some FrameOp.configure_swapchain) →
        (∀ k info2, k < j → tr[k]? ≠ some (FrameOp.callback info2)) →
        info.swapchain_reloaded = false := by
  intro tr
  induction tr with
  | nil => intro _ j info hj; simp at hj
  | cons op rest ih =>
    intro h j info hj hnc hno
    cases j with
    | zero =>
      simp only [List.getElem?_cons_zero, Option.some.injEq] at hj
      subst hj
      simp only [reloadReported, Bool.and_eq_true, beq_iff_eq] at h
      exact h.1
    | succ k =>
      simp only [List.getElem?_cons_succ] at hj
      have hrest : reloadReported rest false = true := by
        cases op with
        | callback info0 => exact absurd (by simp) (hno 0 info0 (by omega))
        | configure_swapchain => exact absurd (by simp) (hnc 0 (by omega))
        | _ => simpa [reloadReported] using h
      apply ih hrest k info hj
      · intro m hm
        have := hnc (m + 1) (by omega)
        simpa using this
      · intro m info2 hm
        have := hno (m + 1) info2 (by omega)
        simpa using this

/-- The scan stays valid on every suffix, with the pending value it reached. -/
theorem reloadReported_tail (op : FrameOp) (rest : List FrameOp) (p : Bool)
    (h : reloadReported (op :: rest) p = true) :
    reloadReported rest (reloadPending [op] p) = true := by
  cases op <;> simp_all [reloadReported, reloadPending]

/-- After a rebuild, the next callback receives `true`. -/
theorem reloadReported_after_configure :
    ∀ (tr : List FrameOp) (p : Bool), reloadReported tr p = true →
      ∀ (i j : Nat) (info : FrameInfo), i < j →
        tr[i]? = some FrameOp.configure_swapchain →
        tr[j]? = some (FrameOp.callback info) →
        (∀ k info2, i < k → k < j → tr[k]? ≠ some (FrameOp.callback info2)) →
        info.swapchain_reloaded = true := by
  intro tr
  induction tr with
  | nil => intro _ _ i j info _ hi; simp at hi
  | cons op rest ih =>
    intro p h i j info hij hi hj hno
    cases j with
    | zero => omega
    | succ j1 =>
      simp only [List.getElem?_cons_succ] at hj
      cases i with
      | zero =>
        simp only [List.getElem?_cons_zero, Option.some.injEq] at hi
        subst hi
        have hrest : reloadReported rest true = true := by simpa [reloadReported] using h
        apply reloadReported_first_true rest hrest j1 info hj
        intro m info2 hm
        have := hno (m + 1) info2 (by omega) (by omega)
        simpa using this
      | succ i1 =>
        simp only [List.getElem?_cons_succ] at hi
        apply ih _ (reloadReported_tail op rest p h) i1 j1 info (by omega) hi hj
        intro m info2 hm1 hm2
        have := hno (m + 1) info2 (by omega) (by omega)
        simpa using this

/-- After a callback, the next callback receives `false` unless a rebuild
lies between them. -/
theorem reloadReported_after_callback :
    ∀ (tr : List FrameOp) (p : Bool), reloadReported tr p = true →
      ∀ (i j : Nat) (info1 info : FrameInfo), i < j →
        tr[i]? = some (FrameOp.callback info1) →
        tr[j]? = some (FrameOp.callback info) →
        (∀ k, i < k → k < j → tr[k]? ≠ some FrameOp.configure_swapchain) →
        (∀ k info2, i < k → k < j → tr[k]? ≠ some (FrameOp.callback info2)) →
        info.swapchain_reloaded = false := by
  intro tr
  induction tr with
  | nil => intro _ _ i j info1 info _ hi; simp at hi
  | cons op rest ih =>
    intro p h i j info1 info hij hi hj hnc hno
    cases j with
    | zero => omega
    | succ j1 =>
      simp only [List.getElem?_cons_succ] at hj
      cases i with
      | zero =>
        simp only [List.getElem?_cons_zero, Option.some.injEq] at hi
        subst hi
        have hrest : reloadReported rest false = true := by
          simp only [reloadReported, Bool.and_eq_true] at h
          exact h.2
        apply reloadReported_first_false rest hrest j1 info hj
        · intro m hm
          have := hnc (m + 1) (by omega) (by omega)
          simpa using this
        · intro m info2 hm
          have := hno (m + 1) info2 (by omega) (by omega)
          simpa using this
      | succ i1 =>
        simp only [List.getElem?_cons_succ] at hi
        apply ih _ (reloadReported_tail op rest p h) i1 j1 info1 info (by omega) hi hj
        · intro m hm1 hm2
          have := hnc (m + 1) (by omega) (by omega)
          simpa using this
        · intro m info2 hm1 hm2
          have := hno (m + 1) info2 (by omega) (by omega)
          simpa using this

/-- The constructor leaves the reload flag set. -/
theorem create_reloaded (support : Nat → Bool) (fams : List QueueFamilyProperties)
    (senv : SurfaceEnv) (c : RenderContext)
    (h : RenderContext.create support fams senv = .ok c) : c.m_swapchain_reloaded = true := by
  unfold RenderContext.create at h
  split at h
  · simp at h
  · simp only [Except.ok.injEq] at h
    subst h
    rfl

/-- The scan accepts the trace of every session whose earlier calls returned. -/
theorem session_trace_reported (support : Nat → Bool) (fams : List QueueFamilyProperties)
    (senv : SurfaceEnv) (c : RenderContext)
    (h : RenderContext.create support fams senv = .ok c)
    (envs : List FrameEnv) (hret : allReturned c envs = true) (env : FrameEnv) :
    reloadReported (session_trace c envs env) false = true := by
  have h0 := create_reloaded support fams senv c h
  obtain ⟨h1, h2⟩ := frames_reload_scan envs c hret
  have h3 := (render_frame_reload_scan (render_frames c envs) env).1
  rw [h0] at h1 h2
  simp only [session_trace, reloadReported, reloadReported_append, h1, h2, h3, Bool.and_self]

/-! ## The reload flag along call sequences: result -/

/-- C13: take a context built by the constructor, any sequence of
`render_frame` calls that return, and one further call. In the trace since
construction (which starts with the constructor's chain build), a callback
that follows a rebuild with no other callback in between receives
`swapchain_reloaded = true`, and a callback that follows another callback
with no rebuild in between receives `false`. -/
theorem c13_reload_reported_once (support : Nat → Bool) (fams : List QueueFamilyProperties)
    (senv : SurfaceEnv) (c : RenderContext)
    (h : RenderContext.create support fams senv = .ok c)
    (envs : List FrameEnv) (hret : allReturned c envs = true) (env : FrameEnv) :
    (∀ (i j : Nat) (info : FrameInfo), i < j →
      (session_trace c envs env)[i]? = some FrameOp.configure_swapchain →
      (session_trace c envs env)[j]? = some (FrameOp.callback info) →
      (∀ k info2, i < k → k < j →
        (session_trace c envs env)[k]? ≠ some (FrameOp.callback info2)) →
      info.swapchain_reloaded = true) ∧
    (∀ (i j : Nat) (info1 info : FrameInfo), i < j →
      (session_trace c envs env)[i]? = some (FrameOp.callback info1) →
      (session_trace c envs env)[j]? = some (FrameOp.callback info) →
      (∀ k, i < k → k < j →
        (session_trace c envs env)[k]? ≠ some FrameOp.configure_swapchain) →
      (∀ k info2, i < k → k < j →
        (session_trace c envs env)[k]? ≠ some (FrameOp.callback info2)) →
      info.swapchain_reloaded = false) := by
  have hs := session_trace_reported support fams senv c h envs hret env
  exact ⟨reloadReported_after_configure _ _ hs, reloadReported_after_callback _ _ hs⟩

/-- Witness for C13: two frames on the sample context, the second of which
rebuilds the chain after its present, and a third frame. The three callbacks
receive true, false and true. -/
theorem c13_reload_reported_once_witness :
    RenderContext.create scenarioSupport scenarioFamilies sampleSurface = .ok sampleContext ∧
    allReturned sampleContext [envOk, envPresentOutOfDate] = true ∧
    (session_trace sampleContext [envOk, envPresentOutOfDate] envOk)[4]? =
      some (FrameOp.callback ⟨0, 0, 0, true⟩) ∧
    (session_trace sampleContext [envOk, envPresentOutOfDate] envOk)[9]? =
      some (FrameOp.callback ⟨0, 1, 0, false⟩) ∧
    (session_trace sampleContext [envOk, envPresentOutOfDate] envOk)[11]? =
      some FrameOp.configure_swapchain ∧
    (session_trace sampleContext [envOk, envPresentOutOfDate] envOk)[15]? =
      some (FrameOp.callback ⟨0, 0, 0, true⟩) ∧
    (∀ (i j : Nat) (info : FrameInfo), i < j →
      (session_trace sampleContext [envOk, envPresentOutOfDate] envOk)[i]? =
        some FrameOp.configure_swapchain →
      (session_trace sampleContext [envOk, envPresentOutOfDate] envOk)[j]? =
        some (FrameOp.callback info) →
      (∀ k info2, i < k → k < j →
        (session_trace sampleContext [envOk, envPresentOutOfDate] envOk)[k]? ≠
          some (FrameOp.callback info2)) →
      info.swapchain_reloaded = true) :=
  ⟨create_sampleContext, by decide, by decide, by decide, by decide, by decide,
    (c13_reload_reported_once scenarioSupport scenarioFamilies sampleSurface sampleContext
      create_sampleContext [envOk, envPresentOutOfDate] (by decide) envOk).1⟩

/-! ## Resource state tracking: lemmas -/

theorem runTrackOps_append (st : TrackedImage × List ImageMemoryBarrier2) :
    ∀ (a b : List TrackOp), runTrackOps st (a ++ b) = runTrackOps (runTrackOps st a) b := by
  intro a
  induction a generalizing st with
  | nil => intro b; rfl
  | cons op rest ih => intro b; simp [runTrackOps, ih]

/-- Calls that do not write the owner leave it unchanged. -/
theorem runTrackOps_owner_unchanged :
    ∀ (ops : List TrackOp) (st : TrackedImage × List ImageMemoryBarrier2),
      (∀ op ∈ ops, op.writesOwner = false) →
      (runTrackOps st ops).1.m_state.current_owner = st.1.m_state.current_owner := by
  intro ops
  induction ops with
  | nil => intro st _; rfl
  | cons op rest ih =>
    intro st h
    rw [runTrackOps, ih _ (fun o ho => h o (List.mem_cons_of_mem _ ho))]
    have hop := h op (List.mem_cons_self _ _)
    cases op <;> simp_all [TrackOp.writesOwner, TrackOp.apply, TrackedImage.set_layout,
      TrackedImage.set_access]

/-- Calls that do not write the layout leave it unchanged. -/
theorem runTrackOps_layout_unchanged :
    ∀ (ops : List TrackOp) (st : TrackedImage × List ImageMemoryBarrier2),
      (∀ op ∈ ops, op.writesLayout = false) →
      (runTrackOps st ops).1.m_state.current_layout = st.1.m_state.current_layout := by
  intro ops
  induction ops with
  | nil => intro st _; rfl
  | cons op rest ih =>
    intro st h
    rw [runTrackOps, ih _ (fun o ho => h o (List.mem_cons_of_mem _ ho))]
    have hop := h op (List.mem_cons_self _ _)
    cases op <;> simp_all [TrackOp.writesLayout, TrackOp.apply, TrackedImage.set_owner,
      TrackedImage.set_access]

/-- Calls that do not write the access mask leave it unchanged. -/
theorem runTrackOps_access_unchanged :
    ∀ (ops : List TrackOp) (st : TrackedImage × List ImageMemoryBarrier2),
      (∀ op ∈ ops, op.writesAccess = false) →
      (runTrackOps st ops).1.m_state.current_access = st.1.m_state.current_access := by
  intro ops
  induction ops with
  | nil => intro st _; rfl
  | cons op rest ih =>
    intro st h
    rw [runTrackOps, ih _ (fun o ho => h o (List.mem_cons_of_mem _ ho))]
    have hop := h op (List.mem_cons_self _ _)
    cases op <;> simp_all [TrackOp.writesAccess, TrackOp.apply, TrackedImage.set_owner,
      TrackedImage.set_layout]

/-- Every tracker made by `reload_image_tracking` starts in the undefined
layout, without access, owned by family 0. -/
theorem reload_image_tracking_state (c : RenderContext) :
    (reload_image_tracking c).length = c.m_swapchain_images.length ∧
    (reload_image_tracking c).map (fun t => t.m_image) = c.m_swapchain_images ∧
    ∀ t ∈ reload_image_tracking c, t.m_state = ⟨eUndefined, eNone, 0⟩ := by
  refine ⟨by simp [reload_image_tracking], ?_, ?_⟩
  · simp [reload_image_tracking, TrackedImage.new, Function.comp_def]
  · intro t ht
    simp only [reload_image_tracking, List.mem_map] at ht
    obtain ⟨image, _, rfl⟩ := ht
    rfl

/-! ## Resource state tracking: results -/

/-- C14, code evaluated at the failing input: on a device whose graphics
family is 1, the callback run with `swapchain_reloaded = true` re-seeds one
tracker per chain image, each in the undefined layout and without access, but
owned by family 0, not by the graphics family. -/
theorem c14_reseed_owner_zero :
    RenderContext.create (fun _ => true) computeFirstFamilies sampleSurface =
      .ok computeFirstContext ∧
    computeFirstContext.m_queue_families.graphics = 1 ∧
    (renderReload computeFirstContext [] ⟨0, 0, 1, true⟩).length =
      computeFirstContext.m_swapchain_images.length ∧
    (renderReload computeFirstContext [] ⟨0, 0, 1, true⟩).map (fun t => t.m_state) =
      [⟨eUndefined, eNone, 0⟩, ⟨eUndefined, eNone, 0⟩, ⟨eUndefined, eNone, 0⟩] := by
  refine ⟨rfl, rfl, rfl, rfl⟩

/-- C15: one `transition` appends exactly one barrier to the command buffer;
its old layout, source access and source family are the tracked state, its
new layout, destination access and stages are the arguments, its destination
family is `new_owner`, or the tracked owner when `new_owner` is
`VK_QUEUE_FAMILY_IGNORED`; afterwards the tracked state is the new layout,
the new access and that destination family. A second call with the same
arguments appends a second barrier. -/
theorem c15_transition_barrier (t : TrackedImage) (cmd : List ImageMemoryBarrier2)
    (src_stage dst_stage new_layout new_access new_owner : Nat) :
    (t.transition cmd src_stage dst_stage new_layout new_access new_owner).2 =
      cmd ++ [{ image := t.m_image,
                subresourceRange := t.m_subresource_range,
                oldLayout := t.m_state.current_layout,
                newLayout := new_layout,
                srcAccessMask := t.m_state.current_access,
                dstAccessMask := new_access,
                srcQueueFamilyIndex := t.m_state.current_owner,
                dstQueueFamilyIndex :=
                  if new_owner = VK_QUEUE_FAMILY_IGNORED then t.m_state.current_owner
                  else new_owner,
                srcStageMask := src_stage,
                dstStageMask := dst_stage }] ∧
    (t.transition cmd src_stage dst_stage new_layout new_access new_owner).1.m_state =
      { current_layout := new_layout,
        current_access := new_access,
        current_owner :=
          if new_owner = VK_QUEUE_FAMILY_IGNORED then t.m_state.current_owner
          else new_owner } ∧
    (new_owner = VK_QUEUE_FAMILY_IGNORED →
      (t.transition cmd src_stage dst_stage new_layout new_access
        new_owner).1.m_state.current_owner = t.m_state.current_owner) ∧
    ((t.transition cmd src_stage dst_stage new_layout new_access new_owner).1.transition
        (t.transition cmd src_stage dst_stage new_layout new_access new_owner).2
        src_stage dst_stage new_layout new_access new_owner).2.length = cmd.length + 2 := by
  refine ⟨?_, ?_, ?_, ?_⟩
  · simp [TrackedImage.transition, TrackedImage.barrier]
  · simp [TrackedImage.transition, TrackedImage.barrier, TrackedImage.set_layout,
      TrackedImage.set_access, TrackedImage.set_owner]
  · intro h
    simp [TrackedImage.transition, TrackedImage.barrier, TrackedImage.set_layout,
      TrackedImage.set_access, TrackedImage.set_owner, h]
  · simp [TrackedImage.transition]

/-- C16: on one `TrackedImage`, take any calls `pre`, then one call `x`,
then calls `mid`, then a `transition`. That transition records the barrier
`barrierAfter`. If `mid` holds no `set_owner` and no `transition`, its source
family is the argument of `x` when `x` is a `set_owner`, the destination
family of the barrier of `x` when `x` is a `transition`, and the initial owner
when nothing precedes `mid`. The same holds for the old layout (with
`set_layout` and the new layout) and for the source access mask (with
`set_access` and the destination access mask). -/
theorem c16_barrier_chaining (st : TrackedImage × List ImageMemoryBarrier2)
    (pre mid : List TrackOp) (s2 d2 l2 a2 o2 : Nat) :
    (∀ ops, (runTrackOps st (ops ++ [.transition s2 d2 l2 a2 o2])).2 =
      (runTrackOps st ops).2 ++ [barrierAfter st ops s2 d2 l2 a2 o2]) ∧
    ((∀ op ∈ mid, op.writesOwner = false) →
      (barrierAfter st mid s2 d2 l2 a2 o2).srcQueueFamilyIndex = st.1.m_state.current_owner ∧
      (∀ q, (barrierAfter st (pre ++ .set_owner q :: mid) s2 d2 l2 a2
        o2).srcQueueFamilyIndex = q) ∧
      (∀ s1 d1 l1 a1 o1,
        (barrierAfter st (pre ++ .transition s1 d1 l1 a1 o1 :: mid) s2 d2 l2 a2
          o2).srcQueueFamilyIndex =
        (barrierAfter st pre s1 d1 l1 a1 o1).dstQueueFamilyIndex)) ∧
    ((∀ op ∈ mid, op.writesLayout = false) →
      (barrierAfter st mid s2 d2 l2 a2 o2).oldLayout = st.1.m_state.current_layout ∧
      (∀ q, (barrierAfter st (pre ++ .set_layout q :: mid) s2 d2 l2 a2 o2).oldLayout = q) ∧
      (∀ s1 d1 l1 a1 o1,
        (barrierAfter st (pre ++ .transition s1 d1 l1 a1 o1 :: mid) s2 d2 l2 a2
          o2).oldLayout =
        (barrierAfter st pre s1 d1 l1 a1 o1).newLayout)) ∧
    ((∀ op ∈ mid, op.writesAccess = false) →
      (barrierAfter st mid s2 d2 l2 a2 o2).srcAccessMask = st.1.m_state.current_access ∧
      (∀ q, (barrierAfter st (pre ++ .set_access q :: mid) s2 d2 l2 a2 o2).srcAccessMask = q) ∧
      (∀ s1 d1 l1 a1 o1,
        (barrierAfter st (pre ++ .transition s1 d1 l1 a1 o1 :: mid) s2 d2 l2 a2
          o2).srcAccessMask =
        (barrierAfter st pre s1 d1 l1 a1 o1).dstAccessMask)) := by
  refine ⟨?_, ?_, ?_, ?_⟩
  · intro ops
    rw [runTrackOps_append]
    rfl
  · intro h
    refine ⟨runTrackOps_owner_unchanged mid st h, ?_, ?_⟩
    · intro q
      show (runTrackOps st (pre ++ .set_owner q :: mid)).1.m_state.current_owner = q
      rw [runTrackOps_append, runTrackOps, runTrackOps_owner_unchanged mid _ h]
      rfl
    · intro s1 d1 l1 a1 o1
      show (runTrackOps st (pre ++ .transition s1 d1 l1 a1 o1 :: mid)).1.m_state.current_owner
        = _
      rw [runTrackOps_append, runTrackOps, runTrackOps_owner_unchanged mid _ h]
      rfl
  · intro h
    refine ⟨runTrackOps_layout_unchanged mid st h, ?_, ?_⟩
    · intro q
      show (runTrackOps st (pre ++ .set_layout q :: mid)).1.m_state.current_layout = q
      rw [runTrackOps_append, runTrackOps, runTrackOps_layout_unchanged mid _ h]
      rfl
    · intro s1 d1 l1 a1 o1
      show (runTrackOps st (pre ++ .transition s1 d1 l1 a1 o1 :: mid)).1.m_state.current_layout
        = _
      rw [runTrackOps_append, runTrackOps, runTrackOps_layout_unchanged mid _ h]
      rfl
  · intro h
    refine ⟨runTrackOps_access_unchanged mid st h, ?_, ?_⟩
    · intro q
      show (runTrackOps st (pre ++ .set_access q :: mid)).1.m_state.current_access = q
      rw [runTrackOps_append, runTrackOps, runTrackOps_access_unchanged mid _ h]
      rfl
    · intro s1 d1 l1 a1 o1
      show (runTrackOps st (pre ++ .transition s1 d1 l1 a1 o1 :: mid)).1.m_state.current_access
        = _
      rw [runTrackOps_append, runTrackOps, runTrackOps_access_unchanged mid _ h]
      rfl

/-! ## Swapchain parameters: lemmas -/

/-- The format loop returns the preferred pair when the list holds it. -/
theorem pickFormat_preferred (cur : SurfaceFormatKHR) :
    ∀ (formats : List SurfaceFormatKHR),
      (∃ f ∈ formats, f.format = eB8G8R8A8Srgb ∧ f.colorSpace = eSrgbNonlinear) →
      pickFormat cur formats = ⟨eB8G8R8A8Srgb, eSrgbNonlinear⟩ := by
  intro formats
  induction formats with
  | nil => intro h; simp at h
  | cons g rest ih =>
    intro h
    unfold pickFormat
    split
    · rename_i hg
      simp only [Bool.and_eq_true, beq_iff_eq] at hg
      cases g
      simp_all
    · rename_i hg
      apply ih
      obtain ⟨f, hf, h1, h2⟩ := h
      rcases List.mem_cons.mp hf with rfl | hf
      · simp [h1, h2] at hg
      · exact ⟨f, hf, h1, h2⟩

/-- The format loop keeps the initial format when the list lacks the preferred pair. -/
theorem pickFormat_fallback (cur : SurfaceFormatKHR) :
    ∀ (formats : List SurfaceFormatKHR),
      (∀ f ∈ formats, ¬ (f.format = eB8G8R8A8Srgb ∧ f.colorSpace = eSrgbNonlinear)) →
      pickFormat cur formats = cur := by
  intro formats
  induction formats with
  | nil => intro _; rfl
  | cons g rest ih =>
    intro h
    unfold pickFormat
    split
    · rename_i hg
      simp only [Bool.and_eq_true, beq_iff_eq] at hg
      exact absurd hg (h g (List.mem_cons_self _ _))
    · exact ih (fun f hf => h f (List.mem_cons_of_mem _ hf))

/-! ## Swapchain parameters: results -/

/-- C17 fails as stated: the list holds R8G8B8A8_SRGB with the sRGB-nonlinear
color space, and `configure_swapchain` selects the first listed format,
B8G8R8A8_UNORM. -/
theorem c17_rgba_srgb_counterexample :
    SurfaceFormatKHR.mk eR8G8B8A8Srgb eSrgbNonlinear ∈ rgbaSurface.formats ∧
    (configure_swapchain sampleContext rgbaSurface).1.m_swapchain_configuration.format =
      eB8G8R8A8Unorm ∧
    (swapchainCreateInfo sampleContext rgbaSurface).imageFormat ≠ eR8G8B8A8Srgb := by
  decide

/-- C17 as amended: for a non-empty format list, `configure_swapchain`
selects B8G8R8A8_SRGB with the sRGB-nonlinear color space when that pair is
listed at any position, and the first listed format otherwise (R8G8B8A8_SRGB
gets no preference). -/
theorem c17_format_choice (c : RenderContext) (env : SurfaceEnv) (first : SurfaceFormatKHR)
    (rest : List SurfaceFormatKHR) (hne : env.formats = first :: rest) :
    ((∃ f ∈ env.formats, f.format = eB8G8R8A8Srgb ∧ f.colorSpace = eSrgbNonlinear) →
      (swapchainCreateInfo c env).imageFormat = eB8G8R8A8Srgb ∧
      (swapchainCreateInfo c env).imageColorSpace = eSrgbNonlinear ∧
      (configure_swapchain c env).1.m_swapchain_configuration.format = eB8G8R8A8Srgb ∧
      (configure_swapchain c env).1.m_swapchain_configuration.color_space = eSrgbNonlinear) ∧
    ((∀ f ∈ env.formats, ¬ (f.format = eB8G8R8A8Srgb ∧ f.colorSpace = eSrgbNonlinear)) →
      (swapchainCreateInfo c env).imageFormat = first.format ∧
      (swapchainCreateInfo c env).imageColorSpace = first.colorSpace ∧
      (configure_swapchain c env).1.m_swapchain_configuration.format = first.format ∧
      (configure_swapchain c env).1.m_swapchain_configuration.color_space =
        first.colorSpace) := by
  constructor
  · intro h
    have e := pickFormat_preferred (env.formats.headD ⟨0, 0⟩) env.formats h
    have e1 : (swapchainCreateInfo c env).imageFormat = eB8G8R8A8Srgb := by
      show (pickFormat _ _).format = _
      rw [e]
    have e2 : (swapchainCreateInfo c env).imageColorSpace = eSrgbNonlinear := by
      show (pickFormat _ _).colorSpace = _
      rw [e]
    exact ⟨e1, e2, e1, e2⟩
  · intro h
    have e := pickFormat_fallback (env.formats.headD ⟨0, 0⟩) env.formats h
    have e1 : (swapchainCreateInfo c env).imageFormat = first.format := by
      show (pickFormat _ _).format = _
      rw [e, hne]
      rfl
    have e2 : (swapchainCreateInfo c env).imageColorSpace = first.colorSpace := by
      show (pickFormat _ _).colorSpace = _
      rw [e, hne]
      rfl
    exact ⟨e1, e2, e1, e2⟩

/-- Witness for C17 as amended: on `rgbaSurface` the preferred pair is absent
and the first listed format is selected. -/
theorem c17_format_choice_witness :
    rgbaSurface.formats =
      ⟨eB8G8R8A8Unorm, eSrgbNonlinear⟩ :: [⟨eR8G8B8A8Srgb, eSrgbNonlinear⟩] ∧
    (swapchainCreateInfo sampleContext rgbaSurface).imageFormat = eB8G8R8A8Unorm ∧
    (swapchainCreateInfo sampleContext rgbaSurface).imageColorSpace = eSrgbNonlinear :=
  have h := (c17_format_choice sampleContext rgbaSurface ⟨eB8G8R8A8Unorm, eSrgbNonlinear⟩
    [⟨eR8G8B8A8Srgb, eSrgbNonlinear⟩] rfl).2 (by decide)
  ⟨rfl, h.1, h.2.1⟩

/-- C18 fails as stated: the current extent (0xFFFFFFFF, 600) is not the
sentinel pair, yet `configure_swapchain` selects the clamped framebuffer size
800 by 500. -/
theorem c18_sentinel_width_counterexample :
    sentinelWidthSurface.caps.currentExtent ≠ ⟨UINT32_MAX, UINT32_MAX⟩ ∧
    (configure_swapchain sampleContext sentinelWidthSurface).1.m_swapchain_configuration.extent =
      ⟨800, 500⟩ ∧
    (configure_swapchain sampleContext sentinelWidthSurface).1.m_swapchain_configuration.extent ≠
      sentinelWidthSurface.caps.currentExtent := by
  decide

/-- C18 as amended: when the width of the reported current extent is not
0xFFFFFFFF, `configure_swapchain` selects the current extent exactly, whatever
the framebuffer size and the minimum and maximum extents are. -/
theorem c18_current_extent (c : RenderContext) (env : SurfaceEnv)
    (h : env.caps.currentExtent.width ≠ UINT32_MAX) :
    (swapchainCreateInfo c env).imageExtent = env.caps.currentExtent ∧
    (configure_swapchain c env).1.m_swapchain_configuration.extent = env.caps.currentExtent := by
  have e : pickExtent env.caps env.framebuffer = env.caps.currentExtent := by
    simp [pickExtent, h]
  exact ⟨e, e⟩

/-- Witness for C18 as amended: the sample surface reports 800 by 600. -/
theorem c18_current_extent_witness :
    sampleSurface.caps.currentExtent.width ≠ UINT32_MAX ∧
    (swapchainCreateInfo sampleContext sampleSurface).imageExtent = ⟨800, 600⟩ ∧
    (configure_swapchain sampleContext sampleSurface).1.m_swapchain_configuration.extent =
      ⟨800, 600⟩ :=
  have h := c18_current_extent sampleContext sampleSurface (by decide)
  ⟨by decide, h.1, h.2⟩

/-- C19 fails as stated: with the undefined current extent, minimum width 1
and maximum width 4096, the framebuffer width -1 lies below the minimum, yet
the selected width is the maximum 4096. -/
theorem c19_negative_width_counterexample :
    negativeWidthSurface.caps.currentExtent = ⟨UINT32_MAX, UINT32_MAX⟩ ∧
    negativeWidthSurface.framebuffer.1 = -1 ∧
    negativeWidthSurface.framebuffer.1 < (negativeWidthSurface.caps.minImageExtent.width : Int) ∧
    (swapchainCreateInfo sampleContext negativeWidthSurface).imageExtent.width = 4096 ∧
    (swapchainCreateInfo sampleContext negativeWidthSurface).imageExtent.width ≠
      negativeWidthSurface.caps.minImageExtent.width := by
  decide

/-- C19 as amended: when the current extent has the sentinel width, the
minimum extent is componentwise at most the maximum extent and the
framebuffer size (w, h) is non-negative (w, h below 2^31), the selected width
is w clamped into [min.width, max.width] and the selected height is h clamped
into [min.height, max.height]. -/
theorem c19_clamped_extent (c : RenderContext) (env : SurfaceEnv) (w h : Nat)
    (hs : env.caps.currentExtent.width = UINT32_MAX)
    (hw : env.caps.minImageExtent.width ≤ env.caps.maxImageExtent.width)
    (hh : env.caps.minImageExtent.height ≤ env.caps.maxImageExtent.height)
    (hfb : env.framebuffer = ((w : Int), (h : Int)))
    (hwr : w < 2 ^ 31) (hhr : h < 2 ^ 31) :
    (w < env.caps.minImageExtent.width →
      (swapchainCreateInfo c env).imageExtent.width = env.caps.minImageExtent.width) ∧
    (env.caps.maxImageExtent.width < w →
      (swapchainCreateInfo c env).imageExtent.width = env.caps.maxImageExtent.width) ∧
    (env.caps.minImageExtent.width ≤ w → w ≤ env.caps.maxImageExtent.width →
      (swapchainCreateInfo c env).imageExtent.width = w) ∧
    (h < env.caps.minImageExtent.height →
      (swapchainCreateInfo c env).imageExtent.height = env.caps.minImageExtent.height) ∧
    (env.caps.maxImageExtent.height < h →
      (swapchainCreateInfo c env).imageExtent.height = env.caps.maxImageExtent.height) ∧
    (env.caps.minImageExtent.height ≤ h → h ≤ env.caps.maxImageExtent.height →
      (swapchainCreateInfo c env).imageExtent.height = h) := by
  have ew : toUint32 (w : Int) = w := by
    unfold toUint32
    have : ((w : Int) % 2 ^ 32) = (w : Int) := Int.emod_eq_of_lt (by omega) (by omega)
    rw [this]
    simp
  have eh : toUint32 (h : Int) = h := by
    unfold toUint32
    have : ((h : Int) % 2 ^ 32) = (h : Int) := Int.emod_eq_of_lt (by omega) (by omega)
    rw [this]
    simp
  have e : (swapchainCreateInfo c env).imageExtent =
      { width := clamp w env.caps.minImageExtent.width env.caps.maxImageExtent.width,
        height := clamp h env.caps.minImageExtent.height env.caps.maxImageExtent.height } := by
    show pickExtent env.caps env.framebuffer = _
    simp [pickExtent, hs, hfb, ew, eh]
  rw [e]
  simp only [clamp]
  refine ⟨?_, ?_, ?_, ?_, ?_, ?_⟩ <;> intros <;> split_ifs <;> omega

/-- Witness for C19 as amended: a framebuffer of 5000 by 0 against limits
1..4096 gives 4096 by 1. -/
theorem c19_clamped_extent_witness :
    undefinedExtentSurface.caps.currentExtent.width = UINT32_MAX ∧
    undefinedExtentSurface.framebuffer = (((5000 : Nat) : Int), ((0 : Nat) : Int)) ∧
    (swapchainCreateInfo sampleContext undefinedExtentSurface).imageExtent.width = 4096 ∧
    (swapchainCreateInfo sampleContext undefinedExtentSurface).imageExtent.height = 1 :=
  have h := c19_clamped_extent sampleContext undefinedExtentSurface 5000 0 rfl (by decide)
    (by decide) rfl (by decide) (by decide)
  ⟨rfl, rfl, h.2.1 (by decide), h.2.2.2.1 (by decide)⟩

/-- C20: when the minimum image count is below 2^32 - 1, the requested image
count is the minimum plus one if no maximum is declared (maximum 0), and the
smaller of the minimum plus one and the maximum otherwise. -/
theorem c20_image_count (c : RenderContext) (env : SurfaceEnv)
    (h : env.caps.minImageCount < 2 ^ 32 - 1) :
    (env.caps.maxImageCount = 0 →
      (swapchainCreateInfo c env).minImageCount = env.caps.minImageCount + 1) ∧
    (env.caps.maxImageCount > 0 →
      (swapchainCreateInfo c env).minImageCount =
        min (env.caps.minImageCount + 1) env.caps.maxImageCount) := by
  have e : (swapchainCreateInfo c env).minImageCount = pickImageCount env.caps := rfl
  have hm : (env.caps.minImageCount + 1) % 2 ^ 32 = env.caps.minImageCount + 1 :=
    Nat.mod_eq_of_lt (by omega)
  rw [e]
  unfold pickImageCount
  simp only [hm]
  constructor
  · intro h0
    simp [h0]
  · intro h0
    by_cases h1 : env.caps.minImageCount + 1 > env.caps.maxImageCount
    · simp [h0, h1]
      omega
    · simp [h1]
      omega

/-- Witness for C20: a minimum of 2 gives 3 without a maximum, and a maximum
of 3 keeps 3. -/
theorem c20_image_count_witness :
    sampleSurface.caps.minImageCount < 2 ^ 32 - 1 ∧
    sampleSurface.caps.maxImageCount = 0 ∧
    (swapchainCreateInfo sampleContext sampleSurface).minImageCount = 3 :=
  have h := c20_image_count sampleContext sampleSurface (by decide)
  ⟨by decide, rfl, h.1 rfl⟩

/-! ## Present mode, end transition, rebuild trace, skipped frame, pools -/

/-- The present mode loop started from any mode gives mailbox once mailbox is listed. -/
theorem foldl_presentMode_mailbox :
    ∀ (modes : List Nat) (cur : Nat), eMailbox ∈ modes →
      modes.foldl (fun cur mode => if mode == eMailbox then mode else cur) cur = eMailbox := by
  intro modes
  induction modes with
  | nil => intro cur h; simp at h
  | cons m rest ih =>
    intro cur h
    simp only [List.foldl_cons]
    by_cases hr : eMailbox ∈ rest
    · exact ih _ hr
    · have hm : m = eMailbox := by
        rcases List.mem_cons.mp h with h1 | h1
        · exact h1.symm
        · exact absurd h1 hr
      subst hm
      have : ∀ (l : List Nat) (c : Nat), eMailbox ∉ l →
          l.foldl (fun cur mode => if mode == eMailbox then mode else cur) c = c := by
        intro l
        induction l with
        | nil => intro c _; rfl
        | cons x xs ihx =>
          intro c hx
          simp only [List.mem_cons, not_or] at hx
          simp only [List.foldl_cons]
          have hne : (x == eMailbox) = false := by
            simp only [beq_eq_false_iff_ne, ne_eq]
            exact fun e => hx.1 e.symm
          rw [hne]
          exact ihx c hx.2
      simpa using this rest eMailbox hr

/-- The present mode loop keeps its start value when mailbox is not listed. -/
theorem foldl_presentMode_keep :
    ∀ (modes : List Nat) (cur : Nat), eMailbox ∉ modes →
      modes.foldl (fun cur mode => if mode == eMailbox then mode else cur) cur = cur := by
  intro modes
  induction modes with
  | nil => intro cur _; rfl
  | cons x xs ih =>
    intro cur hx
    simp only [List.mem_cons, not_or] at hx
    simp only [List.foldl_cons]
    have hne : (x == eMailbox) = false := by
      simp only [beq_eq_false_iff_ne, ne_eq]
      exact fun e => hx.1 e.symm
    rw [hne]
    exact ih cur hx.2

/-- C21: for every list of offered present modes, `configure_swapchain`
requests mailbox when mailbox occurs anywhere in the list and FIFO otherwise,
whatever the other modes and their order are. -/
theorem c21_present_mode (c : RenderContext) (env : SurfaceEnv) :
    (eMailbox ∈ env.present_modes → (swapchainCreateInfo c env).presentMode = eMailbox) ∧
    (eMailbox ∉ env.present_modes → (swapchainCreateInfo c env).presentMode = eFifo) := by
  constructor
  · intro h
    exact foldl_presentMode_mailbox env.present_modes eFifo h
  · intro h
    exact foldl_presentMode_keep env.present_modes eFifo h

/-- C26, code evaluated at the failing input: with graphics family 0 and
present family 1 the end-transition barrier goes from the color-attachment
layout to the present layout, but its source family is the present family 1
and its destination family is left at the default 0. -/
theorem c26_end_transition_families :
    sampleContext.m_queue_families.graphics = 0 ∧
    sampleContext.m_queue_families.present = 1 ∧
    (simple_rendering_end_transition sampleContext 10).oldLayout = eColorAttachmentOptimal ∧
    (simple_rendering_end_transition sampleContext 10).newLayout = ePresentSrcKHR ∧
    (simple_rendering_end_transition sampleContext 10).srcQueueFamilyIndex = 1 ∧
    (simple_rendering_end_transition sampleContext 10).dstQueueFamilyIndex = 0 := by
  decide

/-- C27: in a `configure_swapchain` run with a previous chain, the creation
call receives the previous handle as `oldSwapchain`, and the calls are:
create, wait-idle, one destroy per previous image view, destroy of the
previous chain, then the image query and the view creations; so every destroy
comes after the wait-idle. Without a previous chain nothing is destroyed. -/
theorem c27_rebuild_trace (c : RenderContext) (env : SurfaceEnv) :
    (∀ old, c.m_swapchain = some old →
      (swapchainCreateInfo c env).oldSwapchain = some old ∧
      (configure_swapchain c env).2 =
        [DeviceOp.createSwapchainKHR (swapchainCreateInfo c env), DeviceOp.waitIdle] ++
          c.m_swapchain_image_views.map DeviceOp.destroyImageView ++
          [DeviceOp.destroySwapchainKHR old, DeviceOp.getSwapchainImagesKHR] ++
          env.images.map DeviceOp.createImageView ∧
      (∀ (j : Nat) (op : DeviceOp), (configure_swapchain c env).2[j]? = some op →
        op.isDestroy = true →
        ∃ i : Nat, i < j ∧ (configure_swapchain c env).2[i]? = some DeviceOp.waitIdle)) ∧
    (c.m_swapchain = none →
      (swapchainCreateInfo c env).oldSwapchain = none ∧
      (configure_swapchain c env).2 =
        [DeviceOp.createSwapchainKHR (swapchainCreateInfo c env),
          DeviceOp.getSwapchainImagesKHR] ++ env.images.map DeviceOp.createImageView ∧
      (∀ op ∈ (configure_swapchain c env).2, op.isDestroy = false)) := by
  constructor
  · intro old h
    have ho : (swapchainCreateInfo c env).oldSwapchain = some old := h
    have ht : (configure_swapchain c env).2 =
        [DeviceOp.createSwapchainKHR (swapchainCreateInfo c env), DeviceOp.waitIdle] ++
          c.m_swapchain_image_views.map DeviceOp.destroyImageView ++
          [DeviceOp.destroySwapchainKHR old, DeviceOp.getSwapchainImagesKHR] ++
          env.images.map DeviceOp.createImageView := by
      simp [configure_swapchain, ho]
    refine ⟨ho, ht, ?_⟩
    intro j op hj hd
    rw [ht] at hj ⊢
    cases j with
    | zero =>
      simp at hj
      subst hj
      simp [DeviceOp.isDestroy] at hd
    | succ k =>
      cases k with
      | zero =>
        simp at hj
        subst hj
        simp [DeviceOp.isDestroy] at hd
      | succ m => exact ⟨1, by omega, by simp⟩
  · intro h
    have ho : (swapchainCreateInfo c env).oldSwapchain = none := h
    have ht : (configure_swapchain c env).2 =
        [DeviceOp.createSwapchainKHR (swapchainCreateInfo c env),
          DeviceOp.getSwapchainImagesKHR] ++ env.images.map DeviceOp.createImageView := by
      simp [configure_swapchain, ho]
    refine ⟨ho, ht, ?_⟩
    intro op hop
    rw [ht] at hop
    simp only [List.cons_append, List.nil_append, List.mem_cons, List.mem_map] at hop
    rcases hop with rfl | rfl | ⟨image, _, rfl⟩ <;> rfl

/-- Every call that returns without a callback ends with a rebuild followed
by an acquire. -/
theorem render_frame_skip_ends_with_acquire (c : RenderContext) (env : FrameEnv)
    (hret : (render_frame c env).outcome = .returned)
    (hno : ∀ info, FrameOp.callback info ∉ (render_frame c env).trace) :
    (render_frame c env).trace.drop ((render_frame c env).trace.length - 2) =
      [FrameOp.configure_swapchain, FrameOp.acquireNextImageKHR c.m_current_frame] := by
  revert hret hno
  unfold render_frame acquireHandler frameBody
  repeat' split
  all_goals simp_all

/-- C28, code evaluated at the failing input: the first acquire throws
out-of-date; the call returns without a callback, and its last operation is
an acquire issued after the rebuild, whose image index 1 is stored. -/
theorem c28_skip_path_acquires :
    (render_frame sampleContext envAcquireOutOfDate).outcome = .returned ∧
    (render_frame sampleContext envAcquireOutOfDate).trace =
      [.waitForFences 0, .acquireNextImageKHR 0, .configure_swapchain,
        .acquireNextImageKHR 0] ∧
    (render_frame sampleContext envAcquireOutOfDate).trace.countP FrameOp.isCallback = 0 ∧
    (render_frame sampleContext envAcquireOutOfDate).trace.countP FrameOp.isPresent = 0 ∧
    (render_frame sampleContext envAcquireOutOfDate).ctx.m_frame_info.image_index = 1 := by
  decide

/-- C29: when a call returns without having invoked the callback (which
happens only after an acquire threw out-of-date), the slot index is
unchanged, no fence reset was issued, the reload flag is set, and in every
continuation by calls that return the first callback receives
`swapchain_reloaded = true`. -/
theorem c29_early_return_state (c : RenderContext) (env : FrameEnv)
    (hret : (render_frame c env).outcome = .returned)
    (hno : ∀ info, FrameOp.callback info ∉ (render_frame c env).trace) :
    (env.acquireNextImageKHR 0 = .threw .outOfDateKHRError ∨
      env.acquireNextImageKHR 1 = .threw .outOfDateKHRError) ∧
    (render_frame c env).ctx.m_current_frame = c.m_current_frame ∧
    (∀ k, FrameOp.resetFences k ∉ (render_frame c env).trace) ∧
    (render_frame c env).ctx.m_swapchain_reloaded = true ∧
    (∀ (envs : List FrameEnv), allReturned (render_frame c env).ctx envs = true →
      ∀ (env2 : FrameEnv) (j : Nat) (info : FrameInfo),
        (frames_trace (render_frame c env).ctx envs ++
          (render_frame (render_frames (render_frame c env).ctx envs) env2).trace)[j]? =
            some (FrameOp.callback info) →
        (∀ k info2, k < j →
          (frames_trace (render_frame c env).ctx envs ++
            (render_frame (render_frames (render_frame c env).ctx envs) env2).trace)[k]? ≠
              some (FrameOp.callback info2)) →
        info.swapchain_reloaded = true) := by
  have hflag : (render_frame c env).ctx.m_swapchain_reloaded = true := by
    revert hret hno
    unfold render_frame acquireHandler frameBody
    repeat' split
    all_goals simp_all
  refine ⟨?_, ?_, ?_, hflag, ?_⟩
  · revert hret hno
    unfold render_frame acquireHandler frameBody
    repeat' split
    all_goals simp_all
  · revert hret hno
    unfold render_frame acquireHandler frameBody
    repeat' split
    all_goals simp_all
  · revert hret hno
    unfold render_frame acquireHandler frameBody
    repeat' split
    all_goals simp_all
  · intro envs hall env2 j info hj hfirst
    obtain ⟨h1, h2⟩ := frames_reload_scan envs (render_frame c env).ctx hall
    have h3 := (render_frame_reload_scan (render_frames (render_frame c env).ctx envs) env2).1
    rw [hflag] at h1 h2
    have hscan : reloadReported (frames_trace (render_frame c env).ctx envs ++
        (render_frame (render_frames (render_frame c env).ctx envs) env2).trace) true = true := by
      rw [reloadReported_append, h1, h2, h3]
      rfl
    exact reloadReported_first_true _ hscan j info hj hfirst

/-- Witness for C29: the first acquire throws out-of-date on the sample
context; the next call is a complete frame and its callback receives `true`. -/
theorem c29_early_return_state_witness :
    (render_frame sampleContext envAcquireOutOfDate).outcome = .returned ∧
    (render_frame sampleContext envAcquireOutOfDate).ctx.m_current_frame = 0 ∧
    (render_frame sampleContext envAcquireOutOfDate).ctx.m_swapchain_reloaded = true ∧
    (render_frame (render_frame sampleContext envAcquireOutOfDate).ctx envOk).trace[3]? =
      some (FrameOp.callback ⟨0, 0, 0, true⟩) :=
  have h := c29_early_return_state sampleContext envAcquireOutOfDate (by decide) (by
    intro info hmem
    have e : (render_frame sampleContext envAcquireOutOfDate).trace =
        [.waitForFences 0, .acquireNextImageKHR 0, .configure_swapchain,
          .acquireNextImageKHR 0] := by decide
    rw [e] at hmem
    simp at hmem)
  ⟨by decide, h.2.1, h.2.2.2.1, by decide⟩

/-- The constructor creates the graphics pool for the graphics family, the
compute pool for the transfer family and the transfer pool for the compute
family. -/
theorem create_pools (support : Nat → Bool) (fams : List QueueFamilyProperties)
    (senv : SurfaceEnv) (c : RenderContext)
    (h : RenderContext.create support fams senv = .ok c) :
    c.m_graphics_pool = some c.m_queue_families.graphics ∧
    c.m_compute_pool = some c.m_queue_families.transfer ∧
    c.m_transfer_pool = some c.m_queue_families.compute := by
  unfold RenderContext.create at h
  split at h
  · simp at h
  · simp only [Except.ok.injEq] at h
    subst h
    exact ⟨rfl, rfl, rfl⟩

/-- C30, code evaluated at the failing input: on the three-family scenario
the transfer family is 0 and the compute family is 2, and the constructor
binds the compute pool to family 0 and the transfer pool to family 2; only the
graphics pool is bound to its namesake family. -/
theorem c30_pools_swapped :
    RenderContext.create scenarioSupport scenarioFamilies sampleSurface = .ok sampleContext ∧
    sampleContext.m_queue_families.transfer = 0 ∧
    sampleContext.m_queue_families.compute = 2 ∧
    sampleContext.m_graphics_pool = some sampleContext.m_queue_families.graphics ∧
    sampleContext.m_compute_pool = some 0 ∧
    sampleContext.m_transfer_pool = some 2 ∧
    sampleContext.m_compute_pool ≠ some sampleContext.m_queue_families.compute ∧
    sampleContext.m_transfer_pool ≠ some sampleContext.m_queue_families.transfer := by
  refine ⟨rfl, ?_⟩
  decide

/-! ## Selection preferences: lemmas -/

/-- A mask with a single bit is zero or that bit. -/
theorem land_two_pow (f k : Nat) : f &&& 2 ^ k = 0 ∨ f &&& 2 ^ k = 2 ^ k := by
  cases h : f.testBit k with
  | false =>
    left
    apply Nat.eq_of_testBit_eq
    intro i
    simp only [Nat.testBit_and, Nat.testBit_two_pow, Nat.zero_testBit]
    by_cases hi : k = i
    · subst hi; simp [h]
    · simp [hi]
  | true =>
    right
    apply Nat.eq_of_testBit_eq
    intro i
    simp only [Nat.testBit_and, Nat.testBit_two_pow]
    by_cases hi : k = i
    · subst hi; simp [h]
    · simp [hi]

/-- For the sparse-binding bit both flag tests agree. -/
theorem hasAll_sparse (f : Nat) : hasAll f eSparseBinding = hasFlag f eSparseBinding := by
  unfold hasAll hasFlag eSparseBinding
  rcases land_two_pow f 3 with h | h <;> simp at h <;> simp [h]

/-- For the graphics bit both flag tests agree. -/
theorem hasAll_graphics (f : Nat) : hasAll f eGraphics = hasFlag f eGraphics := by
  unfold hasAll hasFlag eGraphics
  rcases land_two_pow f 0 with h | h <;> simp at h <;> simp [h]

@[simp] theorem selectStep_sparseGraphics (support : Nat → Bool) (s : Sel) (i : Nat)
    (p : QueueFamilyProperties) :
    (selectStep support s i p).sparseGraphics = (stepGraphics s i p).sparseGraphics := by
  unfold selectStep stepCompute stepTransfer stepPresent
  split <;> split <;> split <;> rfl

@[simp] theorem selectStep_sparseTransfer (support : Nat → Bool) (s : Sel) (i : Nat)
    (p : QueueFamilyProperties) :
    (selectStep support s i p).sparseTransfer = (stepTransfer s i p).sparseTransfer := by
  unfold selectStep stepCompute stepTransfer stepPresent stepGraphics transferCond
  split <;> split <;> split <;> split <;> simp_all

@[simp] theorem selectStep_sparseCompute (support : Nat → Bool) (s : Sel) (i : Nat)
    (p : QueueFamilyProperties) :
    (selectStep support s i p).sparseCompute = (stepCompute s i p).sparseCompute := by
  unfold selectStep stepCompute stepTransfer stepPresent stepGraphics computeCond
  split <;> split <;> split <;> split <;> simp_all

@[simp] theorem selectStep_computeGraphicsShared (support : Nat → Bool) (s : Sel) (i : Nat)
    (p : QueueFamilyProperties) :
    (selectStep support s i p).computeGraphicsShared =
      (stepCompute s i p).computeGraphicsShared := by
  unfold selectStep stepCompute stepTransfer stepPresent stepGraphics computeCond
  split <;> split <;> split <;> split <;> simp_all

/-- A property kept by every iteration holds after the loop. -/
theorem selectLoop_invariant (support : Nat → Bool) (fl : Nat → Nat) (inv : Sel → Nat → Prop)
    (bound : Nat)
    (hstep : ∀ (s : Sel) (i : Nat) (props : QueueFamilyProperties), inv s i →
      props.queueFlags = fl i → i < bound → inv (selectStep support s i props) (i + 1)) :
    ∀ (ps : List QueueFamilyProperties) (i : Nat) (s : Sel),
      (∀ k p, ps[k]? = some p → p.queueFlags = fl (i + k)) →
      i + ps.length ≤ bound → inv s i →
      inv (selectLoop support ps i s) (i + ps.length) := by
  intro ps
  induction ps with
  | nil => intro i s _ _ h; simpa [selectLoop] using h
  | cons props rest ih =>
    intro i s hfl hlen h
    simp only [List.length_cons] at hlen
    have h1 := hstep s i props h (by simpa using hfl 0 props (by simp)) (by omega)
    have h2 := ih (i + 1) (selectStep support s i props)
      (fun k p hk => by
        have := hfl (k + 1) p (by simpa using hk)
        rw [this]; congr 1; omega)
      (by omega) h1
    rw [selectLoop]
    have e : i + (rest.length + 1) = i + 1 + rest.length := by omega
    simpa [e] using h2

/-- The flag words of a list are given by `flagsAt`. -/
theorem flagsAt_spec (fams : List QueueFamilyProperties) :
    ∀ k p, fams[k]? = some p → p.queueFlags = flagsAt fams (0 + k) := by
  intro k p h
  simp [flagsAt, h]

/-- Beyond the end of the list no flag is set. -/
theorem flagsAt_ge (fams : List QueueFamilyProperties) (j : Nat) (h : fams.length ≤ j)
    (bit : Nat) : hasFlag (flagsAt fams j) bit = false := by
  have : fams[j]? = none := List.getElem?_eq_none h
  simp [flagsAt, this, hasFlag]

/-- One iteration keeps the compute invariant. -/
theorem computeInv_step (support : Nat → Bool) (fl : Nat → Nat) (s : Sel) (i : Nat)
    (props : QueueFamilyProperties) (h : computeInv fl s i) (hfl : props.queueFlags = fl i) :
    computeInv fl (selectStep support s i props) (i + 1) := by
  obtain ⟨hnone, hsome⟩ := h
  unfold computeInv
  simp only [selectStep_compute, selectStep_sparseCompute, selectStep_computeGraphicsShared]
  unfold stepCompute
  by_cases hc : computeCond s props = true
  · simp only [hc, if_true]
    have hcp : hasFlag (fl i) eCompute = true := by
      unfold computeCond at hc
      simp only [Bool.and_eq_true] at hc
      rw [← hfl]; exact hc.2
    refine ⟨by simp, ?_⟩
    intro c hcs
    simp only [Option.some.injEq] at hcs
    subst hcs
    refine ⟨by omega, hcp, by rw [hfl, hasAll_sparse], by rw [hfl, hasAll_graphics], ?_⟩
    intro j hj hjc hgood
    by_cases hji : j = i
    · subst hji; exact hgood
    · have hjlt : j < i := by omega
      cases hsc : s.compute with
      | none => rw [hnone hsc j hjlt] at hjc; exact absurd hjc (by decide)
      | some c0 =>
        obtain ⟨_, _, hsp, hgr, _⟩ := hsome c0 hsc
        unfold computeCond at hc
        simp only [hsc, Option.isNone_some, Bool.false_or, Bool.and_eq_true, Bool.or_eq_true,
          Bool.not_eq_true'] at hc
        rw [hfl] at hc
        rcases hc.1 with h1 | h1
        · exact Or.inl h1.2
        · exact Or.inr h1.2
  · have hc0 : computeCond s props = false := by simpa using hc
    simp only [hc0, Bool.false_eq_true, if_false]
    constructor
    · intro hsc j hj
      by_cases hji : j = i
      · subst hji
        simpa [computeCond, hsc, hfl] using hc
      · exact hnone hsc j (by omega)
    · intro c hsc
      obtain ⟨hlt, hcp, hsp, hgr, hgood⟩ := hsome c hsc
      refine ⟨by omega, hcp, hsp, hgr, ?_⟩
      intro j hj hjc hg
      by_cases hji : j = i
      · subst hji
        simp [computeCond, hsc, hfl, hjc] at hc
        rcases hg with hg | hg
        · left
          rw [← hsp]
          cases hs : s.sparseCompute with
          | true => rfl
          | false => have := hc.1 hs; rw [hg] at this; exact absurd this (by decide)
        · right
          rw [← hgr]
          cases hs : s.computeGraphicsShared with
          | true => rfl
          | false => have := hc.2 hs; rw [hg] at this; exact absurd this (by decide)
      · exact hgood j (by omega) hjc hg

/-- The compute invariant holds after the whole loop. -/
theorem computeInv_final (support : Nat → Bool) (fams : List QueueFamilyProperties) :
    computeInv (flagsAt fams) (selectLoop support fams 0 Sel.init) fams.length := by
  have h := selectLoop_invariant support (flagsAt fams) (computeInv (flagsAt fams)) fams.length
    (fun s i props hi hf _ => computeInv_step support (flagsAt fams) s i props hi hf)
    fams 0 Sel.init (flagsAt_spec fams) (by omega)
    ⟨fun _ j hj => by omega, fun c hc => by simp [Sel.init] at hc⟩
  simpa using h

/-! ## Selection preferences: results -/

/-- C25: for every family list on which selection succeeds, if some
compute-capable family also has the sparse-binding flag or the graphics flag,
then the selected compute family has the sparse-binding flag or the graphics
flag. -/
theorem c25_compute_preference (support : Nat → Bool) (fams : List QueueFamilyProperties)
    (r : QueueFamilies) (h : selectQueueFamilies support fams = .ok r)
    (hex : ∃ j, j < fams.length ∧ hasFlag (flagsAt fams j) eCompute = true ∧
      (hasFlag (flagsAt fams j) eSparseBinding = true ∨
        hasFlag (flagsAt fams j) eGraphics = true)) :
    hasFlag (flagsAt fams r.compute) eCompute = true ∧
    (hasFlag (flagsAt fams r.compute) eSparseBinding = true ∨
      hasFlag (flagsAt fams r.compute) eGraphics = true) := by
  unfold selectQueueFamilies at h
  obtain ⟨_, _, hc, _⟩ := selectFinish_ok _ r h
  obtain ⟨_, hsome⟩ := computeInv_final support fams
  obtain ⟨_, hcp, _, _, hgood⟩ := hsome r.compute hc
  obtain ⟨j, hj, hjc, hjg⟩ := hex
  exact ⟨hcp, hgood j hj hjc hjg⟩

/-- Witness for C25: on the three-family scenario the only compute-capable
family has sparse binding and is selected. -/
theorem c25_compute_preference_witness :
    selectQueueFamilies scenarioSupport scenarioFamilies =
      .ok { graphics := 0, present := 1, transfer := 0, compute := 2 } ∧
    hasFlag (flagsAt scenarioFamilies 2) eCompute = true ∧
    (hasFlag (flagsAt scenarioFamilies 2) eSparseBinding = true ∨
      hasFlag (flagsAt scenarioFamilies 2) eGraphics = true) :=
  have h := c25_compute_preference scenarioSupport scenarioFamilies
    { graphics := 0, present := 1, transfer := 0, compute := 2 } rfl
    ⟨2, by decide, by decide, Or.inl (by decide)⟩
  ⟨rfl, h.1, h.2⟩

/-- One iteration keeps the transfer invariant. -/
theorem transferInv_step (support : Nat → Bool) (fl : Nat → Nat) (s : Sel) (i : Nat)
    (props : QueueFamilyProperties) (h : transferInv fl s i) (hfl : props.queueFlags = fl i) :
    transferInv fl (selectStep support s i props) (i + 1) := by
  obtain ⟨hnone, hsome⟩ := h
  unfold transferInv
  simp only [selectStep_transfer, selectStep_sparseTransfer]
  unfold stepTransfer
  by_cases hc : transferCond s props = true
  · simp only [hc, if_true]
    have hded : hasFlag (fl i) eTransfer = true ∧ hasFlag (fl i) eGraphics = false := by
      unfold transferCond at hc
      simp only [Bool.and_eq_true, Bool.not_eq_true'] at hc
      rw [← hfl]; exact ⟨hc.2, hc.1.2⟩
    refine ⟨by simp, ?_⟩
    intro t hts
    simp only [Option.some.injEq] at hts
    subst hts
    refine ⟨by omega, hded.1, hded.2, by rw [hfl, hasAll_sparse], ?_, ?_⟩
    · intro hsp j hj hjt hjg
      cases hst : s.transfer with
      | none => exact absurd ⟨hjt, hjg⟩ (hnone hst j hj)
      | some t0 =>
        obtain ⟨_, _, _, hsp0, _, hns⟩ := hsome t0 hst
        have hc2 := hc
        simp [transferCond, hst] at hc2
        exact (hns hc2.1.1.1).2 j hj hjt hjg
    · intro hsp
      rw [hfl, hasAll_sparse] at hsp
      cases hst : s.transfer with
      | none =>
        refine ⟨fun j hj => hnone hst j hj, ?_⟩
        intro j hj hjt hjg
        by_cases hji : j = i
        · subst hji; exact hsp
        · exact absurd ⟨hjt, hjg⟩ (hnone hst j (by omega))
      | some t0 =>
        have hc2 := hc
        simp [transferCond, hst, hfl, hsp] at hc2
  · have hc0 : transferCond s props = false := by simpa using hc
    simp only [hc0, Bool.false_eq_true, if_false]
    constructor
    · intro hst j hj
      by_cases hji : j = i
      · subst hji
        have hc2 := hc0
        simp [transferCond, hst, hfl] at hc2
        intro hx
        have := hc2 hx.2
        rw [hx.1] at this
        exact absurd this (by decide)
      · exact hnone hst j (by omega)
    · intro t hst
      obtain ⟨hlt, htt, htg, hsp, hs1, hs2⟩ := hsome t hst
      refine ⟨by omega, htt, htg, hsp, hs1, ?_⟩
      intro hns
      obtain ⟨ha, hb⟩ := hs2 hns
      refine ⟨ha, ?_⟩
      intro j hj hjt hjg
      by_cases hji : j = i
      · subst hji
        have hc2 := hc0
        simp [transferCond, hst, hfl, hns, hjt, hjg] at hc2
        exact hc2
      · exact hb j (by omega) hjt hjg

/-- The transfer invariant holds after the whole loop. -/
theorem transferInv_final (support : Nat → Bool) (fams : List QueueFamilyProperties) :
    transferInv (flagsAt fams) (selectLoop support fams 0 Sel.init) fams.length := by
  have h := selectLoop_invariant support (flagsAt fams) (transferInv (flagsAt fams)) fams.length
    (fun s i props hi hf _ => transferInv_step support (flagsAt fams) s i props hi hf)
    fams 0 Sel.init (flagsAt_spec fams) (by omega)
    ⟨fun _ j hj => by omega, fun c hc => by simp [Sel.init] at hc⟩
  simpa using h

/-- C24: call a family dedicated when it has the transfer flag and lacks the
graphics flag. For every family list on which selection succeeds, the
transfer family is the first dedicated family with the sparse-binding flag if
there is one; otherwise the first dedicated family if there is one; otherwise
the selected graphics family. -/
theorem c24_transfer_choice (support : Nat → Bool) (fams : List QueueFamilyProperties)
    (r : QueueFamilies) (h : selectQueueFamilies support fams = .ok r) :
    (∀ k, k < fams.length →
      hasFlag (flagsAt fams k) eTransfer = true → hasFlag (flagsAt fams k) eGraphics = false →
      hasFlag (flagsAt fams k) eSparseBinding = true →
      (∀ j, j < k → hasFlag (flagsAt fams j) eTransfer = true →
        hasFlag (flagsAt fams j) eGraphics = false →
        hasFlag (flagsAt fams j) eSparseBinding = false) →
      r.transfer = k) ∧
    ((∀ j, j < fams.length → hasFlag (flagsAt fams j) eTransfer = true →
        hasFlag (flagsAt fams j) eGraphics = false →
        hasFlag (flagsAt fams j) eSparseBinding = false) →
      ∀ k, k < fams.length →
        hasFlag (flagsAt fams k) eTransfer = true → hasFlag (flagsAt fams k) eGraphics = false →
        (∀ j, j < k → ¬ (hasFlag (flagsAt fams j) eTransfer = true ∧
          hasFlag (flagsAt fams j) eGraphics = false)) →
        r.transfer = k) ∧
    ((∀ j, j < fams.length → ¬ (hasFlag (flagsAt fams j) eTransfer = true ∧
        hasFlag (flagsAt fams j) eGraphics = false)) →
      r.transfer = r.graphics) := by
  unfold selectQueueFamilies at h
  obtain ⟨_, _, _, ht⟩ := selectFinish_ok _ r h
  obtain ⟨hnone, hsome⟩ := transferInv_final support fams
  refine ⟨?_, ?_, ?_⟩
  · intro k hk hkt hkg hks hfirst
    cases hst : (selectLoop support fams 0 Sel.init).transfer with
    | none => exact absurd ⟨hkt, hkg⟩ (hnone hst k hk)
    | some t =>
      rw [hst] at ht
      simp only [Option.getD_some] at ht
      obtain ⟨_, htt, htg, hsp, hs1, hs2⟩ := hsome t hst
      cases hb : (selectLoop support fams 0 Sel.init).sparseTransfer with
      | true =>
        rw [hb] at hsp
        rcases Nat.lt_trichotomy t k with hlt | heq | hgt
        · have := hfirst t hlt htt htg
          rw [← hsp] at this
          exact absurd this (by decide)
        · rw [← ht, heq]
        · have := hs1 hb k hgt hkt hkg
          rw [hks] at this
          exact absurd this (by decide)
      | false =>
        have := (hs2 hb).2 k hk hkt hkg
        rw [hks] at this
        exact absurd this (by decide)
  · intro hnosp k hk hkt hkg hfirst
    cases hst : (selectLoop support fams 0 Sel.init).transfer with
    | none => exact absurd ⟨hkt, hkg⟩ (hnone hst k hk)
    | some t =>
      rw [hst] at ht
      simp only [Option.getD_some] at ht
      obtain ⟨htl, htt, htg, hsp, _, hs2⟩ := hsome t hst
      have hb : (selectLoop support fams 0 Sel.init).sparseTransfer = false := by
        rw [hsp]; exact hnosp t htl htt htg
      rcases Nat.lt_trichotomy t k with hlt | heq | hgt
      · exact absurd ⟨htt, htg⟩ (hfirst t hlt)
      · rw [← ht, heq]
      · exact absurd ⟨hkt, hkg⟩ ((hs2 hb).1 k hgt)
  · intro hno
    cases hst : (selectLoop support fams 0 Sel.init).transfer with
    | none =>
      rw [hst] at ht
      simpa using ht.symm
    | some t =>
      obtain ⟨htl, htt, htg, _⟩ := hsome t hst
      exact absurd ⟨htt, htg⟩ (hno t htl)

/-- Witness for C24: a dedicated family at index 1 and a dedicated sparse
family at index 2; the sparse one is selected. -/
theorem c24_transfer_choice_witness :
    selectQueueFamilies firstSupport transferFamilies =
      .ok { graphics := 0, present := 0, transfer := 2, compute := 0 } ∧
    hasFlag (flagsAt transferFamilies 1) eTransfer = true ∧
    hasFlag (flagsAt transferFamilies 2) eSparseBinding = true ∧
    QueueFamilies.transfer { graphics := 0, present := 0, transfer := 2, compute := 0 } = 2 :=
  have h := (c24_transfer_choice firstSupport transferFamilies
    { graphics := 0, present := 0, transfer := 2, compute := 0 } rfl).1 2
    (by decide) (by decide) (by decide) (by decide) (by decide)
  ⟨rfl, by decide, by decide, h⟩

/-- The present index after the second `if` is the old one or the current index. -/
theorem stepPresent_present_cases (support : Nat → Bool) (s : Sel) (i p : Nat)
    (h : (stepPresent support s i).present = some p) :
    s.present = some p ∨ (s.present = none ∧ p = i) := by
  unfold stepPresent at h
  split at h
  · rename_i hc
    simp only [Bool.and_eq_true, Option.isNone_iff_eq_none] at hc
    simp only [Option.some.injEq] at h
    exact Or.inr ⟨hc.1, h.symm⟩
  · exact Or.inl h

/-- A present index that is set is never replaced. -/
theorem stepPresent_present_some (support : Nat → Bool) (s : Sel) (i p : Nat)
    (h : s.present = some p) : (stepPresent support s i).present = some p := by
  unfold stepPresent
  simp [h]

/-- One iteration keeps the graphics invariant. -/
theorem graphicsInv_step (support : Nat → Bool) (fl : Nat → Nat) (s : Sel) (i : Nat)
    (props : QueueFamilyProperties) (h : graphicsInv fl s i) (hfl : props.queueFlags = fl i)
    (hi : i < UINT32_MAX) : graphicsInv fl (selectStep support s i props) (i + 1) := by
  obtain ⟨hnone, hsome, hpres⟩ := h
  unfold graphicsInv
  simp only [selectStep_graphics, selectStep_sparseGraphics, selectStep_present]
  unfold stepGraphics
  by_cases hc : graphicsCond s props = true
  · simp only [hc, if_true]
    have hgi : hasFlag (fl i) eGraphics = true := by
      unfold graphicsCond at hc
      simp only [Bool.and_eq_true] at hc
      rw [← hfl]; exact hc.2
    have hold : ∀ g0, s.graphics = some g0 →
        s.sparseGraphics = false ∧ s.present ≠ some g0 := by
      intro g0 hg0
      have hc2 := hc
      simp [graphicsCond, hg0] at hc2
      refine ⟨hc2.1.1, ?_⟩
      intro hp
      rw [hp] at hc2
      simp at hc2
    have hbefore : ∀ j, j < i → hasFlag (fl j) eGraphics = true →
        hasFlag (fl j) eSparseBinding = false := by
      intro j hj hjg
      cases hsg : s.graphics with
      | none => rw [hnone hsg j hj] at hjg; exact absurd hjg (by decide)
      | some g0 =>
        obtain ⟨hns, hnp⟩ := hold g0 hsg
        obtain ⟨_, _, hsp, hlow, hdis⟩ := hsome g0 hsg
        rcases Nat.lt_trichotomy j g0 with hlt | heq | hgt
        · exact hlow j hlt hjg
        · rw [heq, ← hsp]; exact hns
        · rcases hdis with h1 | h1 | h1
          · rw [hns] at h1; exact absurd h1 (by decide)
          · exact absurd h1 hnp
          · rw [h1 j hgt hj] at hjg; exact absurd hjg (by decide)
    refine ⟨by simp, ?_, ?_⟩
    · intro g hg
      simp only [Option.some.injEq] at hg
      subst hg
      refine ⟨by omega, hgi, by rw [hfl, hasAll_sparse], hbefore, ?_⟩
      exact Or.inr (Or.inr (fun j h1 h2 => by omega))
    · intro p hp
      rcases stepPresent_present_cases support s i p hp with h1 | ⟨_, h1⟩
      · obtain ⟨hpl, hpg⟩ := hpres p h1
        refine ⟨by omega, ?_⟩
        intro hgp
        obtain ⟨g0, hg0, hle⟩ := hpg hgp
        obtain ⟨hns, hnp⟩ := hold g0 hg0
        obtain ⟨_, _, _, _, hdis⟩ := hsome g0 hg0
        have hne : g0 ≠ p := fun e => hnp (by rw [e]; exact h1)
        rcases hdis with h2 | h2 | h2
        · rw [hns] at h2; exact absurd h2 (by decide)
        · exact absurd h2 hnp
        · rw [h2 p (by omega) hpl] at hgp; exact absurd hgp (by decide)
      · subst h1
        exact ⟨by omega, fun _ => ⟨p, rfl, le_refl _⟩⟩
  · have hc0 : graphicsCond s props = false := by simpa using hc
    simp only [hc0, Bool.false_eq_true, if_false]
    refine ⟨?_, ?_, ?_⟩
    · intro hsg j hj
      by_cases hji : j = i
      · subst hji
        simpa [graphicsCond, hsg, hfl] using hc0
      · exact hnone hsg j (by omega)
    · intro g hsg
      obtain ⟨hlt, hgg, hsp, hlow, hdis⟩ := hsome g hsg
      refine ⟨by omega, hgg, hsp, hlow, ?_⟩
      rcases hdis with h1 | h1 | h1
      · exact Or.inl h1
      · exact Or.inr (Or.inl (stepPresent_present_some support s i g h1))
      · by_cases hgi : hasFlag (fl i) eGraphics = true
        · have hc2 := hc0
          simp [graphicsCond, hsg, hfl, hgi] at hc2
          cases hs : s.sparseGraphics with
          | true => exact Or.inl rfl
          | false =>
            have h3 := hc2 hs
            cases hp : s.present with
            | none =>
              rw [hp] at h3
              simp at h3
              omega
            | some p =>
              rw [hp] at h3
              simp at h3
              right; left
              exact stepPresent_present_some support s i g (by rw [hp, h3])
        · right; right
          intro j h2 h3
          by_cases hji : j = i
          · subst hji; simpa using hgi
          · exact h1 j h2 (by omega)
    · intro p hp
      rcases stepPresent_present_cases support s i p hp with h1 | ⟨h0, h1⟩
      · obtain ⟨hpl, hpg⟩ := hpres p h1
        exact ⟨by omega, hpg⟩
      · subst h1
        refine ⟨by omega, ?_⟩
        intro hgp
        cases hsg : s.graphics with
        | none =>
          have hc2 := hc0
          simp [graphicsCond, hsg, hfl, hgp] at hc2
        | some g =>
          obtain ⟨hlt, _⟩ := hsome g hsg
          exact ⟨g, rfl, by omega⟩

/-- The graphics invariant holds after the whole loop. -/
theorem graphicsInv_final (support : Nat → Bool) (fams : List QueueFamilyProperties)
    (hlen : fams.length ≤ UINT32_MAX) :
    graphicsInv (flagsAt fams) (selectLoop support fams 0 Sel.init) fams.length := by
  have h := selectLoop_invariant support (flagsAt fams) (graphicsInv (flagsAt fams)) UINT32_MAX
    (fun s i props hi hf hlt => graphicsInv_step support (flagsAt fams) s i props hi hf hlt)
    fams 0 Sel.init (flagsAt_spec fams) (by omega)
    ⟨fun _ j hj => by omega, fun c hc => by simp [Sel.init] at hc,
      fun p hp => by simp [Sel.init] at hp⟩
  simpa using h

/-- C22 fails as stated: family 0 is graphics-capable without sparse binding,
yet the selected graphics family is family 1, which has sparse binding. -/
theorem c22_sparse_chosen_counterexample :
    selectQueueFamilies scenarioSupport sparseSecondFamilies =
      .ok { graphics := 1, present := 1, transfer := 1, compute := 1 } ∧
    hasFlag (flagsAt sparseSecondFamilies 0) eGraphics = true ∧
    hasFlag (flagsAt sparseSecondFamilies 0) eSparseBinding = false ∧
    hasFlag (flagsAt sparseSecondFamilies 1) eSparseBinding = true := by
  refine ⟨rfl, ?_, ?_, ?_⟩ <;> decide

/-- C22 as amended: for every family list (of at most 2^32 - 1 families) on
which selection succeeds, every graphics-capable family enumerated before the
selected graphics family lacks the sparse-binding flag, and if some
graphics-capable family has the sparse-binding flag, the selected graphics
family has it or is the present family. -/
theorem c22_graphics_sparse (support : Nat → Bool) (fams : List QueueFamilyProperties)
    (r : QueueFamilies) (hlen : fams.length ≤ UINT32_MAX)
    (h : selectQueueFamilies support fams = .ok r) :
    (∀ j, j < r.graphics → hasFlag (flagsAt fams j) eGraphics = true →
      hasFlag (flagsAt fams j) eSparseBinding = false) ∧
    ((∃ j, j < fams.length ∧ hasFlag (flagsAt fams j) eGraphics = true ∧
        hasFlag (flagsAt fams j) eSparseBinding = true) →
      hasFlag (flagsAt fams r.graphics) eSparseBinding = true ∨ r.graphics = r.present) := by
  unfold selectQueueFamilies at h
  obtain ⟨hg, hp, _, _⟩ := selectFinish_ok _ r h
  obtain ⟨_, hsome, _⟩ := graphicsInv_final support fams hlen
  obtain ⟨_, _, hsp, hlow, hdis⟩ := hsome r.graphics hg
  refine ⟨hlow, ?_⟩
  rintro ⟨j, hj, hjg, hjs⟩
  rcases Nat.lt_trichotomy j r.graphics with hlt | heq | hgt
  · have := hlow j hlt hjg
    rw [hjs] at this
    exact absurd this (by decide)
  · left; rw [← heq]; exact hjs
  · rcases hdis with h1 | h1 | h1
    · left; rw [← hsp]; exact h1
    · right
      rw [hp] at h1
      simp only [Option.some.injEq] at h1
      exact h1.symm
    · rw [h1 j hgt hj] at hjg
      exact absurd hjg (by decide)

/-- Witness for C22 as amended: family 1 is graphics-capable with sparse
binding and is selected. -/
theorem c22_graphics_sparse_witness :
    sparseSecondFamilies.length ≤ UINT32_MAX ∧
    selectQueueFamilies scenarioSupport sparseSecondFamilies =
      .ok { graphics := 1, present := 1, transfer := 1, compute := 1 } ∧
    (hasFlag (flagsAt sparseSecondFamilies 1) eSparseBinding = true ∨
      QueueFamilies.graphics { graphics := 1, present := 1, transfer := 1, compute := 1 } =
        QueueFamilies.present { graphics := 1, present := 1, transfer := 1, compute := 1 }) :=
  have h := (c22_graphics_sparse scenarioSupport sparseSecondFamilies
    { graphics := 1, present := 1, transfer := 1, compute := 1 } (by decide) rfl).2
    ⟨1, by decide, by decide, by decide⟩
  ⟨by decide, rfl, h⟩

/-- C23 fails as stated: the present family 0 is determined at index 0,
family 1 is graphics-capable, comes later and differs from the present
family, yet the selected graphics family equals the present family. -/
theorem c23_same_family_counterexample :
    selectQueueFamilies firstSupport twinFamilies =
      .ok { graphics := 0, present := 0, transfer := 0, compute := 0 } ∧
    firstSupport 0 = true ∧
    hasFlag (flagsAt twinFamilies 1) eGraphics = true ∧
    (1 : Nat) ≠ 0 := by
  refine ⟨rfl, ?_, ?_, ?_⟩ <;> decide

/-- C23 as amended: for every family list (of at most 2^32 - 1 families) on
which selection succeeds, if a graphics-capable family is enumerated after
the selected graphics family, the selected graphics family has the
sparse-binding flag or equals the present family; and if the present family
is graphics-capable, the selected graphics family is not enumerated after it,
and equals it when no graphics-capable family before it has sparse binding. -/
theorem c23_graphics_present (support : Nat → Bool) (fams : List QueueFamilyProperties)
    (r : QueueFamilies) (hlen : fams.length ≤ UINT32_MAX)
    (h : selectQueueFamilies support fams = .ok r) :
    (∀ j, r.graphics < j → j < fams.length → hasFlag (flagsAt fams j) eGraphics = true →
      hasFlag (flagsAt fams r.graphics) eSparseBinding = true ∨ r.graphics = r.present) ∧
    (hasFlag (flagsAt fams r.present) eGraphics = true → r.graphics ≤ r.present) ∧
    (hasFlag (flagsAt fams r.present) eGraphics = true →
      (∀ j, j < r.present → hasFlag (flagsAt fams j) eGraphics = true →
        hasFlag (flagsAt fams j) eSparseBinding = false) →
      r.graphics = r.present) := by
  unfold selectQueueFamilies at h
  obtain ⟨hg, hp, _, _⟩ := selectFinish_ok _ r h
  obtain ⟨_, hsome, hpres⟩ := graphicsInv_final support fams hlen
  obtain ⟨_, hgg, hsp, _, hdis⟩ := hsome r.graphics hg
  obtain ⟨hpl, hpg⟩ := hpres r.present hp
  have hle : hasFlag (flagsAt fams r.present) eGraphics = true → r.graphics ≤ r.present := by
    intro hx
    obtain ⟨g, hg2, hle⟩ := hpg hx
    rw [hg] at hg2
    simp only [Option.some.injEq] at hg2
    omega
  have hcase : ∀ j, r.graphics < j → j < fams.length →
      hasFlag (flagsAt fams j) eGraphics = true →
      hasFlag (flagsAt fams r.graphics) eSparseBinding = true ∨ r.graphics = r.present := by
    intro j h1 h2 hjg
    rcases hdis with h3 | h3 | h3
    · left; rw [← hsp]; exact h3
    · right
      rw [hp] at h3
      simp only [Option.some.injEq] at h3
      exact h3.symm
    · rw [h3 j h1 h2] at hjg
      exact absurd hjg (by decide)
  refine ⟨hcase, hle, ?_⟩
  intro hx hno
  have h1 := hle hx
  rcases Nat.lt_or_eq_of_le h1 with hlt | heq
  · rcases hcase r.present hlt hpl hx with h2 | h2
    · have := hno r.graphics hlt hgg
      rw [h2] at this
      exact absurd this (by decide)
    · exact h2
  · exact heq

/-- Witness for C23 as amended: the present family 0 is graphics-capable and
is also the selected graphics family. -/
theorem c23_graphics_present_witness :
    twinFamilies.length ≤ UINT32_MAX ∧
    selectQueueFamilies firstSupport twinFamilies =
      .ok { graphics := 0, present := 0, transfer := 0, compute := 0 } ∧
    hasFlag (flagsAt twinFamilies 0) eGraphics = true ∧
    QueueFamilies.graphics { graphics := 0, present := 0, transfer := 0, compute := 0 } =
      QueueFamilies.present { graphics := 0, present := 0, transfer := 0, compute := 0 } :=
  have h := (c23_graphics_present firstSupport twinFamilies
    { graphics := 0, present := 0, transfer := 0, compute := 0 } (by decide) rfl).2.2
    (by decide) (by decide)
  ⟨by decide, rfl, by decide, h⟩

end vke
